import Mathlib

/-!
# HyperxAlpha session controller — verification development

A shallow embedding of the session-management core of the HyperxAlpha
headset controller (`src/hyperxalpha/controller.py`, class `HyperxWindow`),
together with theorems settling the frozen behavioural claims about it.

Conventions of the embedding:

* Each Python method of the controller that the claims depend on becomes one
  Lean function of the same (snake-case) name, acting on an explicit state
  record `St` that mirrors the mutable attributes of `HyperxWindow` relevant
  to observable behaviour.  Pure-UI side effects (widget enable/disable,
  status label text, tray icon bitmaps) have no counterpart in `St`.
* `time.monotonic()` (a float number of seconds in the source) is modelled
  as an integer number of milliseconds (`Int`), threaded explicitly as a
  `now` argument; duration constants expressed in seconds in the source are
  scaled to milliseconds here.  Every property proved is order-theoretic in
  time, so the change of unit and the idealisation of floats is neutral.
* Qt timers are modelled by a `Bool` "active" flag (plus the interval where
  a claim mentions it); a single-shot timer firing is an explicit event.
* Log emission is returned as a list of `(level, message)` pairs; tray
  notifications are returned as `Note` values.
* The module `hyperxalpha/constants.py` is not part of the provided source
  tree; the `Command` opcode values it defines are opaque to every claim,
  so commands are embedded as named records with arbitrary distinct values.
-/

namespace HyperxAlpha

/-- Module-level constants of `controller.py` (lines 23–49). -/
def OPEN_RETRY_INTERVAL_MS : Nat := 3000

def POLL_INTERVAL_DISCONNECTED_MS : Nat := 5000

def POLL_INTERVAL_CONNECTED_MS : Nat := 30000

def MIC_STATE_PROBE_TIMEOUT_MS : Nat := 1200

def DEVICE_HOTPLUG_INTERVAL_MS : Nat := 2500

def CONNECTION_NOTIFY_DEBOUNCE_MS : Nat := 1800

def BATTERY_NOTIFY_DEBOUNCE_MS : Nat := 1800

def TRANSIENT_TX_FAILURE_LIMIT : Nat := 2

def TX_TIMEOUT_BACKOFF_INITIAL_MS : Nat := 4000

def TX_TIMEOUT_BACKOFF_MAX_MS : Nat := 60000

def TX_QUEUE_MAX_PENDING : Nat := 64

def TX_TIMEOUT_LOG_MIN_INTERVAL_MS : Int := 20000

def TX_QUEUE_FULL_LOG_MIN_INTERVAL_MS : Int := 4000

def LOG_LEVEL_INFO : String := "INFO"

def LOG_LEVEL_WARN : String := "WARN"

def LOG_LEVEL_DEBUG : String := "DEBUG"

/-- `TX_TIMEOUT_ERROR_MARKERS` (controller.py lines 41–49). -/
def TX_TIMEOUT_ERROR_MARKERS : List String :=
  ["timeout", "timed out", "connection timed out", "operation timed out",
   "resource temporarily unavailable", "would block", "resource busy"]

/-- ASCII lower-casing of a character, as `str.lower` acts on the ASCII
error strings the controller matches against. -/
def lower_char (c : Char) : Char :=
  if 65 ≤ c.toNat ∧ c.toNat ≤ 90 then Char.ofNat (c.toNat + 32) else c

def is_ws (c : Char) : Bool :=
  c = ' ' || c = '\t' || c = '\n' || c = '\r'

/-- `str.strip`: drop leading and trailing whitespace. -/
def trim_chars (l : List Char) : List Char :=
  ((l.dropWhile is_ws).reverse.dropWhile is_ws).reverse

def starts_with : List Char → List Char → Bool
  | [], _ => true
  | _ :: _, [] => false
  | p :: ps, c :: cs => p = c && starts_with ps cs

/-- Substring containment (`marker in text` on Python strings). -/
def infix_of (pat : List Char) : List Char → Bool
  | [] => starts_with pat []
  | c :: cs => starts_with pat (c :: cs) || infix_of pat cs

/-- `HyperxWindow._is_timeout_io_error` (lines 371–376): strip and
lower-case the error text, then match any transient-I/O marker. -/
def is_timeout_io_error (error : String) : Bool :=
  let text := (trim_chars error.data).map lower_char
  if text = [] then false
  else TX_TIMEOUT_ERROR_MARKERS.any (fun marker => infix_of marker.data text)

/-- `ConnectionStatus` (from `hyperxalpha/constants.py`, not in the provided
tree; only these two members are referenced by `controller.py`). -/
inductive ConnectionStatus
  | DISCONNECTED
  | CONNECTED
deriving DecidableEq, Repr

/-- A `Command` enum member: a 32-bit command value plus its `.name`.
The concrete values live in the absent `constants.py` and are opaque to
every claim; distinct placeholder values are used. -/
structure Cmd where
  value : Nat
  name : String
deriving DecidableEq, Repr

def Command.CONNECTION_STATE : Cmd := ⟨1, "CONNECTION_STATE"⟩

def Command.STATUS_REQUEST : Cmd := ⟨2, "STATUS_REQUEST"⟩

def Command.PING : Cmd := ⟨3, "PING"⟩

def Command.SLEEP_STATE : Cmd := ⟨4, "SLEEP_STATE"⟩

def Command.VOICE_STATE : Cmd := ⟨5, "VOICE_STATE"⟩

def Command.MIC_MONITOR_STATE : Cmd := ⟨6, "MIC_MONITOR_STATE"⟩

def Command.MICROPHONE_MONITOR : Cmd := ⟨7, "MICROPHONE_MONITOR"⟩

def Command.MICROPHONE_MONITOR_OFF : Cmd := ⟨8, "MICROPHONE_MONITOR_OFF"⟩

def Command.VOICE_PROMPTS : Cmd := ⟨9, "VOICE_PROMPTS"⟩

def Command.VOICE_PROMPTS_OFF : Cmd := ⟨10, "VOICE_PROMPTS_OFF"⟩

def Command.SLEEP_TIMER_10 : Cmd := ⟨11, "SLEEP_TIMER_10"⟩

def Command.SLEEP_TIMER_20 : Cmd := ⟨12, "SLEEP_TIMER_20"⟩

def Command.SLEEP_TIMER_30 : Cmd := ⟨13, "SLEEP_TIMER_30"⟩

/-- A queued transmit request, as put on `self._tx_queue`
(controller.py lines 566–574). -/
structure TxRequest where
  session_id : Nat
  cmd : Cmd
  command_name : String
  allow_transient_failure : Bool
deriving DecidableEq, Repr

/-- A device descriptor as used by `_device_signature`: the fields of a
`DeviceInfo` that enumeration exposes (device_service.py). -/
structure DeviceInfo where
  key : String
  path : String
  vendor_id : Nat
  product_id : Nat
  serial_number : Option String
deriving DecidableEq, Repr

/-- One entry of the per-key `_repeating_log_state` dict. -/
structure RepSt where
  last_emit : Int
  suppressed : Nat
deriving DecidableEq, Repr

/-- `self._pending_battery_notification` payload (lines 1306–1323). -/
structure PendingBattery where
  threshold : Nat
  battery : Nat
  count : Nat
deriving DecidableEq, Repr

/-- A user-facing tray notice (`QSystemTrayIcon.showMessage` calls). -/
inductive Note
  | battery_low (threshold : Nat) (battery : Nat) (grouped : Nat)
  | conn_unstable (changes : Nat) (last_connected : Bool)
  | conn_plain (connected : Bool)
deriving DecidableEq, Repr

/-- The mutable coordinator state of `HyperxWindow` restricted to the
attributes observable behaviour depends on (pure widget state omitted).
Field names follow the Python attributes without the leading underscore. -/
structure St where
  status : ConnectionStatus
  battery : Option Nat
  device_ready : Bool
  shutting_down : Bool
  open_generation : Nat
  opener_alive : Bool
  open_retry_timer_active : Bool
  last_open_error : Option String
  last_io_error : Option String
  transient_tx_failures : Nat
  timeout_tx_failures : Nat
  tx_timeout_backoff_ms : Nat
  tx_suspended_until : Int
  control_channel_busy : Bool
  tx_session_id : Nat
  tx_queue : List TxRequest
  reader_running : Bool
  poll_timer_active : Bool
  poll_interval_ms : Nat
  mic_state_reported : Bool
  mic_probe_timer_active : Bool
  battery_notified_levels : List Nat
  pending_battery_notification : Option PendingBattery
  battery_notification_last_sent : List (Nat × Int)
  battery_notify_timer_active : Bool
  pending_connection_notification : Option Bool
  connection_notification_events : List (Int × Bool)
  connection_notify_timer_active : Bool
  repeating_log_state : List (String × RepSt)
  tray_present : Bool
  tray_notifications : Bool
  mic_monitor_state_setting : Option Bool
  settings_save_ok : Bool
  verbose_io_logs : Bool
  selected_device_key : Option String
  saved_device_key : Option String
  device_by_key : List (String × DeviceInfo)
  last_device_signature : List (String × String × Nat × Nat × Option String)
  last_device_scan_error : Option String
deriving DecidableEq, Repr

/-- Duration constants the source expresses in seconds
(`_connection_event_window_seconds = 20.0`,
`_battery_notification_cooldown_seconds = 900.0`), scaled to the
millisecond time unit of this embedding. -/
def CONNECTION_EVENT_WINDOW_MS : Int := 20000

def BATTERY_NOTIFICATION_COOLDOWN_MS : Int := 900000

/-- The controller state right after `HyperxWindow.__init__` (with a tray
present and notifications on, the configuration the notification claims
range over). -/
def init_st : St where
  status := ConnectionStatus.DISCONNECTED
  battery := none
  device_ready := false
  shutting_down := false
  open_generation := 0
  opener_alive := false
  open_retry_timer_active := false
  last_open_error := none
  last_io_error := none
  transient_tx_failures := 0
  timeout_tx_failures := 0
  tx_timeout_backoff_ms := 0
  tx_suspended_until := 0
  control_channel_busy := false
  tx_session_id := 0
  tx_queue := []
  reader_running := false
  poll_timer_active := false
  poll_interval_ms := POLL_INTERVAL_DISCONNECTED_MS
  mic_state_reported := false
  mic_probe_timer_active := false
  battery_notified_levels := []
  pending_battery_notification := none
  battery_notification_last_sent := []
  battery_notify_timer_active := false
  pending_connection_notification := none
  connection_notification_events := []
  connection_notify_timer_active := false
  repeating_log_state := []
  tray_present := true
  tray_notifications := true
  mic_monitor_state_setting := none
  settings_save_ok := true
  verbose_io_logs := false
  selected_device_key := none
  saved_device_key := none
  device_by_key := []
  last_device_signature := []
  last_device_scan_error := none

/-- Association-list lookup standing in for Python `dict.get`. -/
def alist_get (l : List (Nat × Int)) (k : Nat) : Option Int :=
  (l.find? (fun p => p.1 = k)).map (fun p => p.2)

/-- Association-list update standing in for Python `dict.__setitem__`. -/
def alist_put (l : List (Nat × Int)) (k : Nat) (v : Int) : List (Nat × Int) :=
  (k, v) :: l.filter (fun p => ¬ p.1 = k)

def rep_get (l : List (String × RepSt)) (k : String) : Option RepSt :=
  (l.find? (fun p => p.1 = k)).map (fun p => p.2)

def rep_put (l : List (String × RepSt)) (k : String) (v : RepSt) :
    List (String × RepSt) :=
  (k, v) :: l.filter (fun p => ¬ p.1 = k)

/-- Log output: `(level, message)` pairs appended by `_log` / `_emit_log`. -/
abbrev Logs := List (String × String)

/-- `_set_control_channel_busy` (lines 388–395): the non-UI effect is the
flag assignment (the early return on an unchanged flag yields the same
state). -/
def set_control_channel_busy (s : St) (busy : Bool) : St :=
  { s with control_channel_busy := busy }

/-- `_consume_repeating_log_suppressed` (lines 260–267). -/
def consume_repeating_log_suppressed (s : St) (key : String) : St × Nat :=
  match rep_get s.repeating_log_state key with
  | none => (s, 0)
  | some st =>
      ({ s with repeating_log_state :=
          rep_put s.repeating_log_state key { last_emit := 0, suppressed := 0 } },
       st.suppressed)

/-- `_log_repeating` (lines 269–298): rate-limited logging with a
suppressed-events counter per key. -/
def log_repeating (now : Int) (s : St) (key message : String)
    (min_interval : Int) (level : String) : St × Logs × Bool :=
  let st := (rep_get s.repeating_log_state key).getD { last_emit := 0, suppressed := 0 }
  let min_interval := max 0 min_interval
  if st.last_emit ≤ 0 ∨ min_interval ≤ now - st.last_emit then
    let logs : Logs :=
      if 0 < st.suppressed then
        [(level, message ++ " (suppressed " ++ toString st.suppressed ++ " similar events)")]
      else [(level, message)]
    ({ s with repeating_log_state :=
        rep_put s.repeating_log_state key { last_emit := now, suppressed := 0 } },
     logs, true)
  else
    ({ s with repeating_log_state :=
        rep_put s.repeating_log_state key { st with suppressed := st.suppressed + 1 } },
     [], false)

/-- `_clear_tx_timeout_backoff` (lines 397–412): zero the backoff window,
the suspension deadline and the consecutive-timeout counter, clear the
busy flag, and report previously suppressed timeout log lines. -/
def clear_tx_timeout_backoff (s : St) : St × Logs :=
  let (s, suppressed) := consume_repeating_log_suppressed s "tx-timeout"
  let was_busy := s.control_channel_busy ∨ 0 < s.tx_timeout_backoff_ms ∨
    0 < s.timeout_tx_failures
  let s := { s with tx_timeout_backoff_ms := 0, tx_suspended_until := 0,
                    timeout_tx_failures := 0 }
  let s := set_control_channel_busy s false
  if was_busy ∧ 0 < suppressed then
    (s, [(LOG_LEVEL_INFO,
      "Control channel recovered (suppressed " ++ toString suppressed ++
      " similar timeout events).")])
  else (s, [])

/-- The window-doubling rule of `_apply_tx_timeout_backoff`
(lines 415–421): start at the initial window, else double and cap. -/
def next_backoff (backoff_ms : Nat) : Nat :=
  if backoff_ms ≤ 0 then TX_TIMEOUT_BACKOFF_INITIAL_MS
  else min (backoff_ms * 2) TX_TIMEOUT_BACKOFF_MAX_MS

/-- `_apply_tx_timeout_backoff` (lines 414–427): start at the initial
window or double the current one (capped), stamp the suspension deadline,
mark the channel busy; returns the whole-second pause reported in logs. -/
def apply_tx_timeout_backoff (now : Int) (s : St) : St × Nat :=
  let next_backoff_ms := next_backoff s.tx_timeout_backoff_ms
  let s := { s with tx_timeout_backoff_ms := next_backoff_ms,
                    tx_suspended_until := now + next_backoff_ms }
  let s := set_control_channel_busy s true
  (s, max 1 (next_backoff_ms / 1000))

/-- `_record_timeout_tx_failure` (lines 429–441). -/
def record_timeout_tx_failure (now : Int) (s : St)
    (command_name message : String) : St × Logs :=
  let s := { s with timeout_tx_failures := s.timeout_tx_failures + 1 }
  let (s, backoff_seconds) := apply_tx_timeout_backoff now s
  let (s, logs, _) := log_repeating now s "tx-timeout"
    ("Device I/O transient error (timeout #" ++ toString s.timeout_tx_failures ++
     "): " ++ message ++ "; control channel busy, pausing telemetry polling for " ++
     toString backoff_seconds ++ "s (last command: " ++ command_name ++ ").")
    TX_TIMEOUT_LOG_MIN_INTERVAL_MS LOG_LEVEL_DEBUG
  (s, logs)

/-- `_record_transient_tx_failure` (lines 378–386). -/
def record_transient_tx_failure (s : St) (message : String) : St × Logs :=
  let s := { s with transient_tx_failures := s.transient_tx_failures + 1 }
  (s, [(LOG_LEVEL_DEBUG,
    "Device I/O transient error (" ++ toString s.transient_tx_failures ++
    " consecutive, threshold " ++ toString TRANSIENT_TX_FAILURE_LIMIT ++ "): " ++
    message)])

/-- `_drain_tx_queue` (lines 332–340). -/
def drain_tx_queue (s : St) : St :=
  { s with tx_queue := [] }

/-- `_invalidate_tx_session` (lines 342–344): bump the session id and drop
every queued command. -/
def invalidate_tx_session (s : St) : St :=
  drain_tx_queue { s with tx_session_id := s.tx_session_id + 1 }

/-- `_stop_reader` (lines 1038–1045), clean-exit path. -/
def stop_reader (s : St) : St :=
  { s with reader_running := false }

/-- `_send_connection_notification` (lines 1349–1363): record the pending
final state, append the transition to the sliding window, prune entries
older than the window, and (re)start the single-shot debounce timer. -/
def send_connection_notification (now : Int) (s : St) (connected : Bool) : St :=
  if ¬s.tray_present then s
  else if ¬s.tray_notifications then s
  else
    let events := s.connection_notification_events ++ [(now, connected)]
    let events := events.dropWhile (fun e => decide (e.1 < now - CONNECTION_EVENT_WINDOW_MS))
    { s with pending_connection_notification := some connected,
             connection_notification_events := events,
             connection_notify_timer_active := true }

/-- `_flush_connection_notification` (lines 1365–1411): on timer fire,
prune the sliding window and emit one notice — "unstable" with the
transition count when 3 or more transitions remain in the window, a plain
connected/disconnected notice otherwise. -/
def flush_connection_notification (now : Int) (s : St) : St × Option Note :=
  let connectedO := s.pending_connection_notification
  let s := { s with pending_connection_notification := none,
                    connection_notify_timer_active := false }
  match connectedO with
  | none => (s, none)
  | some connected =>
    if ¬s.tray_present then (s, none)
    else if ¬s.tray_notifications then (s, none)
    else
      let events := s.connection_notification_events.dropWhile
        (fun e => decide (e.1 < now - CONNECTION_EVENT_WINDOW_MS))
      let s := { s with connection_notification_events := events }
      let changes := events.length
      if 3 ≤ changes then (s, some (Note.conn_unstable changes connected))
      else (s, some (Note.conn_plain connected))

/-- `_clear_pending_connection_notifications` (lines 1413–1416). -/
def clear_pending_connection_notifications (s : St) : St :=
  { s with pending_connection_notification := none,
           connection_notify_timer_active := false,
           connection_notification_events := [] }

/-- `_clear_pending_battery_notifications` (lines 1418–1420). -/
def clear_pending_battery_notifications (s : St) : St :=
  { s with pending_battery_notification := none,
           battery_notify_timer_active := false }

/-- `_queue_battery_notification` (lines 1291–1324): drop the request when
the threshold is still inside its cooldown; otherwise create or merge the
pending notice (minimum threshold and battery, count incremented) and
start the debounce timer. -/
def queue_battery_notification (now : Int) (s : St)
    (threshold battery_level : Nat) : St :=
  if ¬s.tray_present then s
  else if ¬s.tray_notifications then s
  else
    let blocked :=
      match alist_get s.battery_notification_last_sent threshold with
      | none => false
      | some last_sent => decide (now - last_sent < BATTERY_NOTIFICATION_COOLDOWN_MS)
    if blocked then s
    else
      let pending :=
        match s.pending_battery_notification with
        | none => { threshold := threshold, battery := battery_level, count := 1 }
        | some p =>
            { threshold := min p.threshold threshold,
              battery := min p.battery battery_level,
              count := p.count + 1 }
      { s with pending_battery_notification := some pending,
               battery_notify_timer_active := true }

/-- `_flush_battery_notification` (lines 1326–1347): on timer fire, emit
the merged pending notice and stamp the emitted threshold's cooldown. -/
def flush_battery_notification (now : Int) (s : St) : St × Option Note × Logs :=
  let pendingO := s.pending_battery_notification
  let s := { s with pending_battery_notification := none,
                    battery_notify_timer_active := false }
  match pendingO with
  | none => (s, none, [])
  | some p =>
    if ¬s.tray_present ∨ ¬s.tray_notifications then (s, none, [])
    else
      let s := { s with battery_notification_last_sent :=
          (alist_put s.battery_notification_last_sent p.threshold now) }
      (s, some (Note.battery_low p.threshold p.battery p.count),
       [(LOG_LEVEL_INFO,
         "Battery notification sent (" ++ toString p.battery ++ "%).")])

def set_add (l : List Nat) (x : Nat) : List Nat :=
  if l.contains x then l else x :: l

/-- `_maybe_notify_battery` (lines 1265–1289): re-arm thresholds the level
has recovered above, pick the lowest crossed threshold, and queue one
notification for it unless already notified. -/
def maybe_notify_battery (now : Int) (s : St) : St :=
  if ¬s.tray_notifications then s
  else
    match s.battery with
    | none => s
    | some battery =>
      let thresholds : List Nat := [20, 10, 5]
      let levels := s.battery_notified_levels.filter
        (fun level => ¬(thresholds.contains level ∧ level < battery))
      let s := { s with battery_notified_levels := levels }
      let thresholdO : Option Nat :=
        if battery ≤ 5 then some 5
        else if battery ≤ 10 then some 10
        else if battery ≤ 20 then some 20
        else none
      match thresholdO with
      | none => s
      | some threshold =>
        if levels.contains threshold then s
        else
          let levels := thresholds.foldl
            (fun acc level => if threshold ≤ level then set_add acc level else acc)
            levels
          let s := { s with battery_notified_levels := levels }
          queue_battery_notification now s threshold battery

/-- `_apply_disconnected_state` (lines 1457–1484). -/
def apply_disconnected_state (now : Int) (s : St)
    (notify_status_change log_status_change clear_battery_history : Bool)
    (poll_interval_ms : Option Nat) : St × Logs :=
  let was_disconnected := s.status = ConnectionStatus.DISCONNECTED
  let s := { s with status := ConnectionStatus.DISCONNECTED }
  let s := set_control_channel_busy s false
  let logs : Logs :=
    if log_status_change ∧ ¬was_disconnected then
      [(LOG_LEVEL_INFO, "Status: DISCONNECTED")]
    else []
  let s :=
    if notify_status_change ∧ ¬was_disconnected then
      send_connection_notification now s false
    else s
  let s := { s with battery := none }
  let s := if clear_battery_history then { s with battery_notified_levels := [] } else s
  let s := clear_pending_battery_notifications s
  let s := { s with mic_state_reported := false, mic_probe_timer_active := false }
  let s :=
    match poll_interval_ms with
    | none => s
    | some interval => { s with poll_interval_ms := interval, poll_timer_active := true }
  (s, logs)

/-- `_handle_device_io_error` (lines 841–863): the fatal-I/O teardown path
— log once per distinct message, invalidate the transmit session, clear
backoff, close and reset to Disconnected, and schedule a retry. -/
def handle_device_io_error (now : Int) (s : St) (message : String) : St × Logs :=
  if s.shutting_down then (s, [])
  else
    let (s, logs1) :=
      if s.last_io_error = some message then (s, ([] : Logs))
      else ({ s with last_io_error := some message },
            [(LOG_LEVEL_WARN, "Device I/O error: " ++ message)])
    let s := invalidate_tx_session s
    let s := { s with transient_tx_failures := 0 }
    let (s, logs2) := clear_tx_timeout_backoff s
    let s := { s with device_ready := false }
    let s := stop_reader s
    let (s, logs3) := apply_disconnected_state now s true false true
      (some POLL_INTERVAL_DISCONNECTED_MS)
    let s := { s with open_retry_timer_active := true }
    (s, logs1 ++ logs2 ++ logs3)

/-- `_process_tx_result` (lines 443–483): classify one transmit outcome.
Returns the acceptance boolean the caller sees. -/
def process_tx_result (now : Int) (s : St) (command_name : String)
    (allow_transient_failure : Bool) (sent : Bool) (io_error : Option String) :
    St × Bool × Logs :=
  match io_error with
  | some err =>
    let message := "TX " ++ command_name ++ " failed: " ++ err
    let timeout_error := is_timeout_io_error err
    if allow_transient_failure ∨ timeout_error then
      if timeout_error then
        let s := { s with transient_tx_failures := 0 }
        let (s, logs) := record_timeout_tx_failure now s command_name message
        (s, false, logs)
      else
        let (s, logs) := record_transient_tx_failure s message
        if TRANSIENT_TX_FAILURE_LIMIT ≤ s.transient_tx_failures then
          let s := { s with transient_tx_failures := 0 }
          let (s, logs2) := handle_device_io_error now s message
          (s, false, logs ++ logs2)
        else (s, false, logs)
    else
      let s := { s with transient_tx_failures := 0 }
      let (s, logs) := handle_device_io_error now s message
      (s, false, logs)
  | none =>
    if sent then
      let s := { s with transient_tx_failures := 0 }
      let (s, logs) := clear_tx_timeout_backoff s
      (s, true, logs)
    else
      let message := "TX " ++ command_name ++ " failed: device handle unavailable."
      if allow_transient_failure then
        let (s, logs) := record_transient_tx_failure s message
        if TRANSIENT_TX_FAILURE_LIMIT ≤ s.transient_tx_failures then
          let s := { s with transient_tx_failures := 0 }
          let (s, logs2) := handle_device_io_error now s message
          (s, false, logs ++ logs2)
        else (s, false, logs)
      else
        let s := { s with transient_tx_failures := 0 }
        let (s, logs) := handle_device_io_error now s message
        (s, false, logs)

/-- `_on_tx_command_completed` (lines 512–530): apply a worker-reported
outcome unless shutting down or from a stale transmit session (an empty
error string is passed as `None`). -/
def on_tx_command_completed (now : Int) (s : St) (session_id : Nat)
    (command_name : String) (allow_transient_failure sent : Bool)
    (error_message : String) : St × Logs :=
  if s.shutting_down then (s, [])
  else if session_id ≠ s.tx_session_id then (s, [])
  else
    let io_error := if error_message = "" then none else some error_message
    let (s, _, logs) :=
      process_tx_result now s command_name allow_transient_failure sent io_error
    (s, logs)

/-- `_send_command` (lines 532–583): reject when the device is not ready
or the control channel is inside its backoff suspension window; otherwise
enqueue on the bounded transmit queue (rejecting when full). -/
def send_command (now : Int) (s : St) (cmd : Cmd)
    (allow_transient_failure : Bool) : St × Bool × Logs :=
  let command_name := cmd.name
  if ¬s.device_ready then
    (s, false,
     if s.verbose_io_logs then
       [(LOG_LEVEL_DEBUG, "TX skipped (device not ready): " ++ command_name)]
     else [])
  else if 0 < s.tx_suspended_until ∧ now < s.tx_suspended_until then
    (s, false,
     if s.verbose_io_logs then
       [(LOG_LEVEL_DEBUG, "TX skipped (control channel busy): " ++ command_name)]
     else [])
  else
    let logs0 : Logs :=
      if s.verbose_io_logs then [(LOG_LEVEL_DEBUG, "TX " ++ command_name)] else []
    if s.tx_queue.length < TX_QUEUE_MAX_PENDING then
      ({ s with tx_queue := s.tx_queue ++
          [{ session_id := s.tx_session_id, cmd := cmd,
             command_name := command_name,
             allow_transient_failure := allow_transient_failure }] },
       true, logs0)
    else
      let (s, logs, _) := log_repeating now s "tx-queue-full"
        ("TX queue full, dropping command: " ++ command_name)
        TX_QUEUE_FULL_LOG_MIN_INTERVAL_MS LOG_LEVEL_WARN
      (s, false, logs0 ++ logs)

/-- `_persist_mic_monitor_state` (lines 1182–1188); settings-service save
success is the `settings_save_ok` state flag. -/
def persist_mic_monitor_state (s : St) (active : Bool) : St × Logs :=
  if s.mic_monitor_state_setting = some active then (s, [])
  else
    let s := { s with mic_monitor_state_setting := some active }
    if ¬s.settings_save_ok then
      (s, [(LOG_LEVEL_INFO, "Unable to persist mic monitor state.")])
    else (s, [])

/-- `_set_mic_monitor_state` (lines 1190–1196); the switch/tray updates
are pure UI. -/
def set_mic_monitor_state (s : St) (active persist : Bool) : St × Logs :=
  if persist then persist_mic_monitor_state s active else (s, [])

/-- `_apply_saved_mic_monitor_preference` (lines 1198–1207). -/
def apply_saved_mic_monitor_preference (now : Int) (s : St) : St × Logs :=
  match s.mic_monitor_state_setting with
  | none => (s, [])
  | some cached =>
    let (s, logs1) := set_mic_monitor_state s cached false
    let (s, _, logs2) := send_command now s
      (if cached then Command.MICROPHONE_MONITOR else Command.MICROPHONE_MONITOR_OFF)
      false
    (s, logs1 ++ logs2)

/-- `_handle_reported_mic_monitor_state` (lines 1209–1220). -/
def handle_reported_mic_monitor_state (now : Int) (s : St)
    (reported_active : Bool) : St × Logs :=
  match s.mic_monitor_state_setting with
  | none =>
    let (s, logs) := set_mic_monitor_state s reported_active false
    (s, logs)
  | some cached =>
    let (s, logs1) := set_mic_monitor_state s cached false
    if reported_active ≠ cached then
      let (s, _, logs2) := send_command now s
        (if cached then Command.MICROPHONE_MONITOR else Command.MICROPHONE_MONITOR_OFF)
        false
      (s, logs1 ++ logs2)
    else (s, logs1)

/-- `_request_mic_monitor_state` (lines 1242–1247). -/
def request_mic_monitor_state (now : Int) (s : St) : St × Logs :=
  if ¬s.device_ready then (s, [])
  else
    let s := { s with mic_state_reported := false }
    let (s, _, logs) := send_command now s Command.MIC_MONITOR_STATE true
    ({ s with mic_probe_timer_active := true }, logs)

/-- `_request_feature_states` (lines 1234–1240). -/
def request_feature_states (now : Int) (s : St) : St × Logs :=
  if ¬s.device_ready then (s, [])
  else
    let (s, _, logs1) := send_command now s Command.STATUS_REQUEST true
    let (s, _, logs2) := send_command now s Command.SLEEP_STATE true
    let (s, _, logs3) := send_command now s Command.VOICE_STATE true
    let (s, logs4) := request_mic_monitor_state now s
    (s, logs1 ++ logs2 ++ logs3 ++ logs4)

/-- `_on_connect` (lines 1486–1501). -/
def on_connect (now : Int) (s : St) : St × Logs :=
  let was_connected := s.status = ConnectionStatus.CONNECTED
  let s := { s with status := ConnectionStatus.CONNECTED,
                    mic_state_reported := false }
  if was_connected then (s, [])
  else
    let logs : Logs := [(LOG_LEVEL_INFO, "Status: CONNECTED")]
    let s := send_connection_notification now s true
    let s := { s with poll_interval_ms := POLL_INTERVAL_CONNECTED_MS,
                      poll_timer_active := true }
    let (s, logs2) := apply_saved_mic_monitor_preference now s
    let (s, logs3) := request_feature_states now s
    (s, logs ++ logs2 ++ logs3)

/-- `_on_disconnect` (lines 1503–1509). -/
def on_disconnect (now : Int) (s : St) : St × Logs :=
  apply_disconnected_state now s true true true (some POLL_INTERVAL_DISCONNECTED_MS)

/-- `_handle_connection_state_packet` (lines 1511–1515). -/
def handle_connection_state_packet (now : Int) (s : St) (value : Nat) :
    St × Logs :=
  if value = 0x01 then on_disconnect now s
  else if value = 0x02 then on_connect now s
  else (s, [])

/-- `_handle_sleep_state_packet` (lines 1517–1528): combo-box updates are
pure UI; the modelled state is unchanged. -/
def handle_sleep_state_packet (s : St) (_value : Nat) : St :=
  s

/-- `_handle_voice_state_packet` (lines 1530–1536): switch updates are
pure UI; the modelled state is unchanged. -/
def handle_voice_state_packet (s : St) (_value : Nat) : St :=
  s

/-- `_handle_mic_monitor_state_packet` (lines 1538–1544). -/
def handle_mic_monitor_state_packet (now : Int) (s : St) (value : Nat) :
    St × Logs :=
  if s.status ≠ ConnectionStatus.CONNECTED then (s, [])
  else if value = 0x00 ∨ value = 0x01 then
    let s := { s with mic_state_reported := true, mic_probe_timer_active := false }
    handle_reported_mic_monitor_state now s (value = 0x01)
  else (s, [])

/-- `_handle_battery_state_packet` (lines 1546–1555): ignore (with one log
line) battery values outside 0–100, otherwise apply the value and run the
battery-notification logic. -/
def handle_battery_state_packet (now : Int) (s : St) (value : Nat) :
    St × Logs :=
  if s.status ≠ ConnectionStatus.CONNECTED then (s, [])
  else if ¬(value ≤ 100) then
    (s, [(LOG_LEVEL_INFO,
      "Ignoring invalid battery value from headset: " ++ toString value)])
  else
    let s := { s with battery := some value }
    (maybe_notify_battery now s, [])

/-- `_handle_mic_monitor_feedback_packet` (lines 1557–1562). -/
def handle_mic_monitor_feedback_packet (now : Int) (s : St) (value : Nat) :
    St × Logs :=
  if s.status ≠ ConnectionStatus.CONNECTED then (s, [])
  else
    let s := { s with mic_state_reported := true, mic_probe_timer_active := false }
    handle_reported_mic_monitor_state now s (0 < value)

/-- `_handle_packet` (lines 1564–1582): drop frames shorter than 4 bytes
or without the `21 BB` magic; otherwise treat the frame as proof of life
(reset transient counters and the backoff) and dispatch on the opcode per
`_packet_handlers` (lines 161–171). -/
def handle_packet (now : Int) (s : St) (data : List Nat) : St × Logs :=
  let logs0 : Logs :=
    if s.verbose_io_logs then [(LOG_LEVEL_DEBUG, "RX packet")] else []
  match data with
  | b0 :: b1 :: code :: value :: _ =>
    if b0 ≠ 0x21 ∨ b1 ≠ 0xBB then (s, logs0)
    else
      let s := { s with transient_tx_failures := 0 }
      let (s, logs1) := clear_tx_timeout_backoff s
      let (s, logs2) :=
        match code with
        | 0x03 => handle_connection_state_packet now s value
        | 0x07 => (handle_sleep_state_packet s value, [])
        | 0x09 => (handle_voice_state_packet s value, [])
        | 0x0A => handle_mic_monitor_state_packet now s value
        | 0x0B => handle_battery_state_packet now s value
        | 0x12 => (handle_sleep_state_packet s value, [])
        | 0x13 => (handle_voice_state_packet s value, [])
        | 0x22 => handle_mic_monitor_feedback_packet now s value
        | 0x24 => handle_connection_state_packet now s value
        | _ => (s, [])
      (s, logs0 ++ logs1 ++ logs2)
  | _ => (s, logs0)

/-- `_start_device_open` (lines 760–773). -/
def start_device_open (s : St) : St :=
  if s.device_ready ∨ s.shutting_down then s
  else if s.opener_alive then s
  else { s with open_generation := s.open_generation + 1, opener_alive := true }

/-- `_on_device_opened` (lines 796–819): discard stale-generation (or
shutdown-time) completions; otherwise mark the device ready, reset error
memory and backoff, stop the retry timer, start the reader, start polling
and issue the initial connectivity probe. -/
def on_device_opened (now : Int) (s : St) (generation : Nat) : St × Logs :=
  let s := { s with opener_alive := false }
  if s.shutting_down ∨ generation ≠ s.open_generation then (s, [])
  else
    let s := { s with device_ready := true, last_open_error := none,
                      last_io_error := none, transient_tx_failures := 0 }
    let (s, logs1) := clear_tx_timeout_backoff s
    let s := { s with open_retry_timer_active := false }
    let logs2 : Logs := [(LOG_LEVEL_INFO, "Device opened.")]
    let s := { s with reader_running := true, poll_timer_active := true }
    let (s, _, logs3) := send_command now s Command.CONNECTION_STATE true
    (s, logs1 ++ logs2 ++ logs3)

/-- `_on_device_failed` (lines 821–836): discard stale-generation (or
shutdown-time) completions; otherwise invalidate the transmit session,
reset to Disconnected, log when the message differs from the previous
open error, and (re)start the fixed-interval retry timer. -/
def on_device_failed (now : Int) (s : St) (generation : Nat)
    (message : String) : St × Logs :=
  let s := { s with opener_alive := false }
  if s.shutting_down ∨ generation ≠ s.open_generation then (s, [])
  else
    let s := invalidate_tx_session s
    let s := { s with device_ready := false }
    let (s, logs1) := apply_disconnected_state now s false false false none
    let (s, logs2) :=
      if s.last_open_error = some message then (s, ([] : Logs))
      else ({ s with last_open_error := some message },
            [(LOG_LEVEL_WARN, "Device unavailable: " ++ message)])
    let s := { s with open_retry_timer_active := true }
    (s, logs1 ++ logs2)

/-- `_on_reader_io_failed` (lines 838–839). -/
def on_reader_io_failed (now : Int) (s : St) (message : String) : St × Logs :=
  handle_device_io_error now s ("RX failed: " ++ message)

/-- `_restart_device_connection` (lines 749–758); the zero-delay
single-shot open is taken immediately (single-threaded event loop). -/
def restart_device_connection (now : Int) (s : St) (reason : Option String) :
    St × Logs :=
  let logs : Logs :=
    match reason with
    | some r => [(LOG_LEVEL_INFO, r)]
    | none => []
  let s := invalidate_tx_session s
  let s := { s with device_ready := false }
  let s := stop_reader s
  let (s, logs2) := apply_disconnected_state now s false false true none
  let s := { s with open_retry_timer_active := false }
  let s := start_device_open s
  (s, logs ++ logs2)

/-- `_device_signature` (lines 604–615). -/
def device_signature (devices : List DeviceInfo) :
    List (String × String × Nat × Nat × Option String) :=
  devices.map (fun item =>
    (item.key, item.path, item.vendor_id, item.product_id, item.serial_number))

/-- `_populate_device_list` (lines 638–676): refresh the signature and the
key-indexed map, and re-resolve the selection (preferred key, then the
persisted key, then the first device), persisting a fallback selection
when the persisted key disappeared. -/
def populate_device_list (s : St) (devices : List DeviceInfo)
    (preferred_key : Option String) : St × Logs :=
  let signature := device_signature devices
  let s := { s with last_device_signature := signature }
  let saved_key := s.saved_device_key
  let s := { s with device_by_key :=
      (devices.map (fun (item : DeviceInfo) => (item.key, item))) }
  match devices with
  | [] => ({ s with selected_device_key := none }, [])
  | d0 :: _ =>
    let target_key : Option String := preferred_key <|> saved_key <|> some d0.key
    let idxO := devices.findIdx? (fun item => some item.key = target_key)
    let fallback_from_saved_key : Bool :=
      match idxO with
      | some _ => false
      | none => saved_key.isSome && decide (target_key = saved_key)
    let index := idxO.getD 0
    let selected_key := (devices.get? index).map (fun item => item.key)
    let s := { s with selected_device_key := selected_key }
    if fallback_from_saved_key ∧ selected_key.isSome ∧ ¬(selected_key = saved_key) then
      if s.settings_save_ok then ({ s with saved_device_key := selected_key }, [])
      else (s, [(LOG_LEVEL_INFO, "Unable to persist fallback headset selection.")])
    else (s, [])

/-- `_apply_selected_device` (lines 738–747); the device-service target
switch is external. Returns whether a session restart was triggered. -/
def apply_selected_device (now : Int) (s : St) (reconnect : Bool) :
    St × Logs × Bool :=
  let selected :=
    match s.selected_device_key with
    | none => none
    | some key =>
      (s.device_by_key.find? (fun (p : String × DeviceInfo) => p.1 = key)).map
        (fun (p : String × DeviceInfo) => p.2)
  let logs : Logs :=
    match selected with
    | some _ => [(LOG_LEVEL_INFO, "Selected headset.")]
    | none => []
  if reconnect then
    let (s, logs2) := restart_device_connection now s
      (some "Reconnecting with selected headset.")
    (s, logs ++ logs2, true)
  else (s, logs, false)

/-- `_poll_device_hotplug` (lines 683–712), with the enumeration outcome
of `_list_compatible_devices` passed in (`devices` on success, `scan_error`
on failure).  Returns whether a session restart was triggered. -/
def poll_device_hotplug (now : Int) (s : St) (devices : List DeviceInfo)
    (scan_error : Option String) : St × Logs × Bool :=
  if s.shutting_down then (s, [], false)
  else
    match scan_error with
    | some err =>
      if s.last_device_scan_error = some err then (s, [], false)
      else
        ({ s with last_device_scan_error := some err },
         [(LOG_LEVEL_WARN, "Hotplug scan unavailable: " ++ err)], false)
    | none =>
      let (s, logs1) :=
        if s.last_device_scan_error ≠ none then
          ({ s with last_device_scan_error := none },
           ([(LOG_LEVEL_INFO, "Hotplug scan restored.")] : Logs))
        else (s, [])
      let signature := device_signature devices
      if signature = s.last_device_signature then (s, logs1, false)
      else
        let previous_selected_key := s.selected_device_key
        let preferred_key := s.saved_device_key <|> previous_selected_key
        let (s, logs2) := populate_device_list s devices preferred_key
        if s.selected_device_key ≠ previous_selected_key then
          let (s, logs3, restarted) := apply_selected_device now s true
          (s, logs1 ++ logs2 ++ logs3, restarted)
        else (s, logs1 ++ logs2, false)

/-- `quit` (lines 1584–1602), state effects only. -/
def quit (s : St) : St :=
  if s.shutting_down then s
  else
    let s := { s with shutting_down := true }
    let s := invalidate_tx_session s
    let s := { s with poll_timer_active := false, mic_probe_timer_active := false,
                      open_retry_timer_active := false }
    let s := clear_pending_connection_notifications s
    let s := clear_pending_battery_notifications s
    let s := stop_reader s
    let s := { s with open_generation := s.open_generation + 1, opener_alive := false }
    s

/-- `_poll_headset` (lines 1256–1263). -/
def poll_headset (now : Int) (s : St) : St × Logs :=
  if ¬s.device_ready then (s, [])
  else if s.status ≠ ConnectionStatus.CONNECTED then
    let (s, _, logs) := send_command now s Command.CONNECTION_STATE true
    (s, logs)
  else
    let (s, _, logs1) := send_command now s Command.STATUS_REQUEST true
    let (s, _, logs2) := send_command now s Command.PING true
    (s, logs1 ++ logs2)

/-- `_on_mic_state_probe_timeout` (lines 1249–1254). -/
def on_mic_state_probe_timeout (now : Int) (s : St) : St × Logs :=
  if ¬s.device_ready ∨ s.status ≠ ConnectionStatus.CONNECTED then (s, [])
  else if s.mic_state_reported then (s, [])
  else apply_saved_mic_monitor_preference now s

/-- `_on_notifications_toggle` (lines 1140–1160), with the switch value
passed in and save success taken from `settings_save_ok`. -/
def on_notifications_toggle (now : Int) (s : St) (enabled : Bool) : St :=
  if enabled = s.tray_notifications then s
  else
    let s1 := { s with tray_notifications := enabled }
    if ¬s.settings_save_ok then s
    else if ¬enabled then
      clear_pending_battery_notifications (clear_pending_connection_notifications s1)
    else maybe_notify_battery now s1

/-- The asynchronous completions, timer ticks, inbound frames and caller
actions the coordinator reacts to: each constructor is one of the
single-threaded event-handling entry points of `HyperxWindow`. -/
inductive Ev
  | packet (now : Int) (data : List Nat)
  | tx_completed (now : Int) (session_id : Nat) (command_name : String)
      (allow_transient_failure sent : Bool) (error_message : String)
  | device_opened (now : Int) (generation : Nat)
  | device_failed (now : Int) (generation : Nat) (message : String)
  | reader_io_failed (now : Int) (message : String)
  | send (now : Int) (cmd : Cmd) (allow_transient_failure : Bool)
  | poll_tick (now : Int)
  | mic_probe_timeout (now : Int)
  | flush_conn (now : Int)
  | flush_battery (now : Int)
  | open_retry_tick
  | hotplug (now : Int) (devices : List DeviceInfo) (scan_error : Option String)
  | restart (now : Int)
  | toggle_notifications (now : Int) (enabled : Bool)
  | do_quit
deriving Repr

/-- One dispatch of the coordinator's event loop (state effect only). -/
def step (s : St) : Ev → St
  | .packet now data => (handle_packet now s data).1
  | .tx_completed now sid name allow sent err =>
      (on_tx_command_completed now s sid name allow sent err).1
  | .device_opened now generation => (on_device_opened now s generation).1
  | .device_failed now generation message =>
      (on_device_failed now s generation message).1
  | .reader_io_failed now message => (on_reader_io_failed now s message).1
  | .send now cmd allow => (send_command now s cmd allow).1
  | .poll_tick now => (poll_headset now s).1
  | .mic_probe_timeout now => (on_mic_state_probe_timeout now s).1
  | .flush_conn now => (flush_connection_notification now s).1
  | .flush_battery now => (flush_battery_notification now s).1
  | .open_retry_tick => start_device_open s
  | .hotplug now devices scan_error =>
      (poll_device_hotplug now s devices scan_error).1
  | .restart now => (restart_device_connection now s none).1
  | .toggle_notifications now enabled => on_notifications_toggle now s enabled
  | .do_quit => quit s

/-- The coordinator state reached from start-up after a sequence of
events. -/
def run_events (evs : List Ev) : St :=
  evs.foldl step init_st

/-- The C10 invariant: the visible battery is absent or within 0–100. -/
def battery_ok (s : St) : Bool :=
  match s.battery with
  | none => true
  | some v => v ≤ 100

/-- Events of the battery-notification subsystem: direct calls to
`_queue_battery_notification` (with arbitrary arguments, subsuming every
caller), the debounce-timer fire, `_clear_pending_battery_notifications`,
and a full disconnect transition (`_on_disconnect`), which models
disconnect/reconnect cycles. -/
inductive BEv
  | queue (now : Int) (threshold battery_level : Nat)
  | flush (now : Int)
  | clear (now : Int)
  | disconnect (now : Int)
deriving Repr

def bev_time : BEv → Int
  | .queue now _ _ => now
  | .flush now => now
  | .clear now => now
  | .disconnect now => now

/-- One battery-notification event: the successor state plus the
`(time, threshold)` of the tray notice it emitted, if any. -/
def bstep (s : St) : BEv → St × Option (Int × Nat)
  | .queue now threshold battery_level =>
      (queue_battery_notification now s threshold battery_level, none)
  | .flush now =>
      match flush_battery_notification now s with
      | (s, some (Note.battery_low threshold _ _), _) => (s, some (now, threshold))
      | (s, _, _) => (s, none)
  | .clear _ => (clear_pending_battery_notifications s, none)
  | .disconnect now =>
      ((apply_disconnected_state now s true true true
          (some POLL_INTERVAL_DISCONNECTED_MS)).1, none)

/-- Run a battery-notification trace, collecting every emitted notice with
its emission time and threshold. -/
def brun (s : St) : List BEv → St × List (Int × Nat)
  | [] => (s, [])
  | e :: es =>
    let (s1, emitted) := bstep s e
    let (s2, out) := brun s1 es
    (s2, emitted.toList ++ out)

/-- Times of a battery-notification trace never decrease, starting no
earlier than `t` (monotonic clock). -/
def bmono (t : Int) (evs : List BEv) : Prop :=
  List.Chain' (fun a b => a ≤ b) (t :: evs.map bev_time)

/-- The C7 property of an emission list: two notices for the same
threshold are always at least the cooldown apart. -/
def cooldown_respected (out : List (Int × Nat)) : Prop :=
  out.Pairwise (fun a b => a.2 = b.2 → a.1 + BATTERY_NOTIFICATION_COOLDOWN_MS ≤ b.1)

/-- The cooldown stamp recorded for `threshold` (if any) is at least one
cooldown in the past of time `t`. -/
def cool_ok (s : St) (threshold : Nat) (t : Int) : Prop :=
  ∀ v, alist_get s.battery_notification_last_sent threshold = some v →
    v + BATTERY_NOTIFICATION_COOLDOWN_MS ≤ t

/-- Induction invariant for the cooldown proof at clock value `t`:
a pending notice passed its threshold's cooldown check, and every
recorded stamp lies in the past. -/
def binv (s : St) (t : Int) : Prop :=
  (∀ p, s.pending_battery_notification = some p → cool_ok s p.threshold t) ∧
  (∀ k v, alist_get s.battery_notification_last_sent k = some v → v ≤ t)

/-- Every already-collected emission is dominated by the stamp currently
recorded for its threshold. -/
def bhist (s : St) (acc : List (Int × Nat)) : Prop :=
  ∀ pr ∈ acc, ∃ v, alist_get s.battery_notification_last_sent pr.2 = some v ∧
    pr.1 ≤ v

/-- `N` consecutive timeout-classified transmit failures applied through
`_record_timeout_tx_failure` (the only producer of backoff escalation). -/
def iter_timeout_failures (now : Int) (command_name message : String) :
    Nat → St → St
  | 0, s => s
  | n + 1, s =>
    (record_timeout_tx_failure now
      (iter_timeout_failures now command_name message n s)
      command_name message).1

/-- The fully reset transmit-failure state: zero backoff window, no
suspension deadline, zero timeout and transient counters, channel not
busy. -/
def tx_failure_state_cleared (s : St) : Prop :=
  s.tx_timeout_backoff_ms = 0 ∧ s.tx_suspended_until = 0 ∧
  s.timeout_tx_failures = 0 ∧ s.control_channel_busy = false ∧
  s.transient_tx_failures = 0

/-- A state after one timeout-classified failure: 4000 ms window, busy
(counterexample / witness input). -/
def backoff_ex_st : St :=
  iter_timeout_failures 0 "PING" "TX PING failed: timeout" 1 init_st

/-- The transmit-failure bookkeeping fields bundled, to track which calls
leave all of them untouched. -/
def tx_fields (s : St) : Nat × Int × Nat × Bool × Nat :=
  (s.tx_timeout_backoff_ms, s.tx_suspended_until, s.timeout_tx_failures,
   s.control_channel_busy, s.transient_tx_failures)

/-- A ready, connected, failure-free state (witness / counterexample
input). -/
def ready_connected_ex_st : St :=
  { init_st with device_ready := true, status := ConnectionStatus.CONNECTED }

/-- A ready state sitting inside a backoff suspension window (witness input). -/
def busy_ex_st : St :=
  { init_st with device_ready := true, tx_suspended_until := 4000 }

/-- A connected state with a known battery value (witness input). -/
def connected_ex_st : St :=
  { init_st with status := ConnectionStatus.CONNECTED, battery := some 42 }

/-- A state whose current open generation is 2 (witness input). -/
def stale_ex_st : St :=
  { init_st with open_generation := 2, battery := some 50 }

/-- The logs of three open attempts failing with messages "A", "B", "A"
(each completion carrying its attempt's generation). -/
def open_fail_trace_logs : Logs :=
  let s1 := start_device_open init_st
  let r1 := on_device_failed 0 s1 1 "A"
  let s2 := start_device_open r1.1
  let r2 := on_device_failed 0 s2 2 "B"
  let s3 := start_device_open r2.1
  let r3 := on_device_failed 0 s3 3 "A"
  r1.2 ++ r2.2 ++ r3.2

/-- Three connection transitions recorded within 2 seconds (witness
input): connected, disconnected, connected. -/
def conn_burst_ex_st : St :=
  send_connection_notification 900
    (send_connection_notification 500
      (send_connection_notification 0 init_st true) false) true

/-- A sample enumerated device (witness input). -/
def hotplug_ex_dev : DeviceInfo :=
  { key := "k", path := "p", vendor_id := 2385, product_id := 5866,
    serial_number := none }

/-- A state that has already recorded the signature of `hotplug_ex_dev`
(witness input). -/
def hotplug_ex_st : St :=
  { init_st with
    last_device_signature := (device_signature [hotplug_ex_dev]),
    selected_device_key := some "k" }

/-- A concrete battery-notification trace: threshold 10 queued and
flushed, then queued and flushed again after the cooldown (witness
input). -/
def bev_trace_ex : List BEv :=
  [BEv.queue 0 10 8, BEv.flush 5, BEv.disconnect 7, BEv.queue 900005 10 7,
   BEv.flush 900006]

/-! ## Theorems -/

/-! Structural lemmas: each helper either leaves the state unchanged or
replaces only the listed fields.  They let every claim proof dispose of
the fields a call cannot touch. -/

lemma log_repeating_spec (now : Int) (s : St) (k m : String) (i : Int)
    (lv : String) :
    ∃ r l b, log_repeating now s k m i lv =
      ({ s with repeating_log_state := r }, l, b) := by
  simp only [log_repeating]
  split
  · exact ⟨_, _, _, rfl⟩
  · exact ⟨_, _, _, rfl⟩

lemma consume_spec (s : St) (k : String) :
    ∃ r n, consume_repeating_log_suppressed s k =
      ({ s with repeating_log_state := r }, n) := by
  unfold consume_repeating_log_suppressed
  cases rep_get s.repeating_log_state k with
  | none => exact ⟨s.repeating_log_state, 0, rfl⟩
  | some st => exact ⟨_, _, rfl⟩

lemma clear_tx_spec (s : St) :
    ∃ r l, clear_tx_timeout_backoff s =
      ({ s with tx_timeout_backoff_ms := 0, tx_suspended_until := 0,
                timeout_tx_failures := 0, control_channel_busy := false,
                repeating_log_state := r }, l) := by
  obtain ⟨r, n, hc⟩ := consume_spec s "tx-timeout"
  simp only [clear_tx_timeout_backoff, hc, set_control_channel_busy]
  split
  · exact ⟨_, _, rfl⟩
  · exact ⟨_, _, rfl⟩

lemma record_timeout_spec (now : Int) (s : St) (cn m : String) :
    ∃ r l, record_timeout_tx_failure now s cn m =
      ({ s with timeout_tx_failures := s.timeout_tx_failures + 1,
                tx_timeout_backoff_ms := (next_backoff s.tx_timeout_backoff_ms),
                tx_suspended_until := now + (next_backoff s.tx_timeout_backoff_ms),
                control_channel_busy := true,
                repeating_log_state := r }, l) := by
  simp only [record_timeout_tx_failure, apply_tx_timeout_backoff,
    set_control_channel_busy, log_repeating]
  split
  · exact ⟨_, _, rfl⟩
  · exact ⟨_, _, rfl⟩

lemma send_conn_spec (now : Int) (s : St) (c : Bool) :
    ∃ p e t, send_connection_notification now s c =
      { s with pending_connection_notification := p,
               connection_notification_events := e,
               connection_notify_timer_active := t } := by
  simp only [send_connection_notification]
  split
  · exact ⟨_, _, _, rfl⟩
  · split
    · exact ⟨_, _, _, rfl⟩
    · exact ⟨_, _, _, rfl⟩

lemma queue_batt_spec (now : Int) (s : St) (threshold b : Nat) :
    ∃ p t, queue_battery_notification now s threshold b =
      { s with pending_battery_notification := p,
               battery_notify_timer_active := t } := by
  simp only [queue_battery_notification]
  split
  · exact ⟨_, _, rfl⟩
  · split
    · exact ⟨_, _, rfl⟩
    · split
      · exact ⟨_, _, rfl⟩
      · split <;> exact ⟨_, _, rfl⟩

lemma maybe_notify_spec (now : Int) (s : St) :
    ∃ lv p t, maybe_notify_battery now s =
      { s with battery_notified_levels := lv,
               pending_battery_notification := p,
               battery_notify_timer_active := t } := by
  simp only [maybe_notify_battery, queue_battery_notification]
  split
  · exact ⟨_, _, _, rfl⟩
  · split
    · exact ⟨_, _, _, rfl⟩
    · repeat' split
      all_goals exact ⟨_, _, _, rfl⟩

lemma send_command_spec (now : Int) (s : St) (cmd : Cmd) (a : Bool) :
    ∃ q r ok l, send_command now s cmd a =
      ({ s with tx_queue := q, repeating_log_state := r }, ok, l) := by
  simp only [send_command, log_repeating]
  repeat' split
  all_goals exact ⟨_, _, _, _, rfl⟩

lemma set_mic_spec (s : St) (a p : Bool) :
    ∃ m l, set_mic_monitor_state s a p = ({ s with mic_monitor_state_setting := m }, l) := by
  simp only [set_mic_monitor_state, persist_mic_monitor_state]
  repeat' split
  all_goals exact ⟨_, _, rfl⟩

lemma apply_disconnected_spec (now : Int) (s : St) (nt lg cb : Bool)
    (pi : Option Nat) :
    ∃ lv p e t pim pta l, apply_disconnected_state now s nt lg cb pi =
      ({ s with status := ConnectionStatus.DISCONNECTED,
                control_channel_busy := false, battery := none,
                battery_notified_levels := lv,
                pending_battery_notification := none,
                battery_notify_timer_active := false,
                mic_state_reported := false, mic_probe_timer_active := false,
                pending_connection_notification := p,
                connection_notification_events := e,
                connection_notify_timer_active := t,
                poll_interval_ms := pim, poll_timer_active := pta }, l) := by
  obtain ⟨p, e, t, hs⟩ := send_conn_spec now
    { s with status := ConnectionStatus.DISCONNECTED,
             control_channel_busy := false } false
  simp only [apply_disconnected_state, set_control_channel_busy,
    clear_pending_battery_notifications]
  repeat' split
  all_goals try simp only [hs]
  all_goals exact ⟨_, _, _, _, _, _, _, rfl⟩

lemma apply_disconnected_no_log (now : Int) (s : St) (nt cb : Bool)
    (pi : Option Nat) :
    (apply_disconnected_state now s nt false cb pi).2 = [] := by
  simp [apply_disconnected_state, set_control_channel_busy,
    clear_pending_battery_notifications]

/-! `tx_fields` preservation: none of the following calls touches the
backoff window, the suspension deadline, the failure counters or the
busy flag. -/

lemma tx_fields_send_command (now : Int) (s : St) (cmd : Cmd) (a : Bool) :
    tx_fields (send_command now s cmd a).1 = tx_fields s := by
  obtain ⟨q, r, ok, l, h⟩ := send_command_spec now s cmd a
  rw [h]
  rfl

lemma tx_fields_send_conn (now : Int) (s : St) (c : Bool) :
    tx_fields (send_connection_notification now s c) = tx_fields s := by
  obtain ⟨p, e, t, h⟩ := send_conn_spec now s c
  rw [h]
  rfl

lemma tx_fields_maybe_notify (now : Int) (s : St) :
    tx_fields (maybe_notify_battery now s) = tx_fields s := by
  obtain ⟨lv, p, t, h⟩ := maybe_notify_spec now s
  rw [h]
  rfl

lemma tx_fields_set_mic (s : St) (a p : Bool) :
    tx_fields (set_mic_monitor_state s a p).1 = tx_fields s := by
  obtain ⟨m, l, h⟩ := set_mic_spec s a p
  rw [h]
  rfl

lemma tx_fields_apply_saved (now : Int) (s : St) :
    tx_fields (apply_saved_mic_monitor_preference now s).1 = tx_fields s := by
  unfold apply_saved_mic_monitor_preference
  cases hms : s.mic_monitor_state_setting with
  | none => rfl
  | some cached =>
    rcases h1 : set_mic_monitor_state s cached false with ⟨s1, l1⟩
    have e1 : tx_fields s1 = tx_fields s := by
      have := tx_fields_set_mic s cached false
      rw [h1] at this
      exact this
    rcases h2 : send_command now s1
        (if cached then Command.MICROPHONE_MONITOR
         else Command.MICROPHONE_MONITOR_OFF) false with ⟨s2, ok2, l2⟩
    have e2 : tx_fields s2 = tx_fields s1 := by
      have := tx_fields_send_command now s1
        (if cached then Command.MICROPHONE_MONITOR
         else Command.MICROPHONE_MONITOR_OFF) false
      rw [h2] at this
      exact this
    simp only [h1, h2]
    exact e2.trans e1

lemma tx_fields_handle_reported (now : Int) (s : St) (reported : Bool) :
    tx_fields (handle_reported_mic_monitor_state now s reported).1 = tx_fields s := by
  unfold handle_reported_mic_monitor_state
  cases hms : s.mic_monitor_state_setting with
  | none =>
    rcases h1 : set_mic_monitor_state s reported false with ⟨s1, l1⟩
    have e1 : tx_fields s1 = tx_fields s := by
      have := tx_fields_set_mic s reported false
      rw [h1] at this
      exact this
    simp only [h1]
    exact e1
  | some cached =>
    rcases h1 : set_mic_monitor_state s cached false with ⟨s1, l1⟩
    have e1 : tx_fields s1 = tx_fields s := by
      have := tx_fields_set_mic s cached false
      rw [h1] at this
      exact this
    rcases h2 : send_command now s1
        (if cached then Command.MICROPHONE_MONITOR
         else Command.MICROPHONE_MONITOR_OFF) false with ⟨s2, ok2, l2⟩
    have e2 : tx_fields s2 = tx_fields s1 := by
      have := tx_fields_send_command now s1
        (if cached then Command.MICROPHONE_MONITOR
         else Command.MICROPHONE_MONITOR_OFF) false
      rw [h2] at this
      exact this
    simp only [h1, h2]
    split
    · exact e2.trans e1
    · exact e1

lemma tx_fields_request_mic (now : Int) (s : St) :
    tx_fields (request_mic_monitor_state now s).1 = tx_fields s := by
  unfold request_mic_monitor_state
  split
  · rfl
  · rcases h1 : send_command now { s with mic_state_reported := false }
        Command.MIC_MONITOR_STATE true with ⟨s1, ok1, l1⟩
    have e1 : tx_fields s1 = tx_fields { s with mic_state_reported := false } := by
      have := tx_fields_send_command now { s with mic_state_reported := false }
        Command.MIC_MONITOR_STATE true
      rw [h1] at this
      exact this
    simp only [h1]
    exact e1

lemma tx_fields_request_features (now : Int) (s : St) :
    tx_fields (request_feature_states now s).1 = tx_fields s := by
  unfold request_feature_states
  split
  · rfl
  · rcases h1 : send_command now s Command.STATUS_REQUEST true with ⟨s1, ok1, l1⟩
    rcases h2 : send_command now s1 Command.SLEEP_STATE true with ⟨s2, ok2, l2⟩
    rcases h3 : send_command now s2 Command.VOICE_STATE true with ⟨s3, ok3, l3⟩
    rcases h4 : request_mic_monitor_state now s3 with ⟨s4, l4⟩
    have e1 : tx_fields s1 = tx_fields s := by
      have := tx_fields_send_command now s Command.STATUS_REQUEST true
      rw [h1] at this; exact this
    have e2 : tx_fields s2 = tx_fields s1 := by
      have := tx_fields_send_command now s1 Command.SLEEP_STATE true
      rw [h2] at this; exact this
    have e3 : tx_fields s3 = tx_fields s2 := by
      have := tx_fields_send_command now s2 Command.VOICE_STATE true
      rw [h3] at this; exact this
    have e4 : tx_fields s4 = tx_fields s3 := by
      have := tx_fields_request_mic now s3
      rw [h4] at this; exact this
    simp only [h1, h2, h3, h4]
    exact ((e4.trans e3).trans e2).trans e1

lemma tx_fields_apply_disconnected (now : Int) (s : St) (nt lg cb : Bool)
    (pi : Option Nat) :
    tx_fields (apply_disconnected_state now s nt lg cb pi).1 =
      (s.tx_timeout_backoff_ms, s.tx_suspended_until, s.timeout_tx_failures,
       false, s.transient_tx_failures) := by
  obtain ⟨lv, p, e, t, pim, pta, l, h⟩ := apply_disconnected_spec now s nt lg cb pi
  rw [h]
  rfl

lemma tx_fields_on_connect (now : Int) (s : St) :
    tx_fields (on_connect now s).1 = tx_fields s := by
  simp only [on_connect]
  split
  · rfl
  · generalize h1 : send_connection_notification now
      { s with status := ConnectionStatus.CONNECTED,
               mic_state_reported := false } true = s1
    have e1 : tx_fields s1 = tx_fields s := by
      have h := tx_fields_send_conn now
        { s with status := ConnectionStatus.CONNECTED,
                 mic_state_reported := false } true
      rw [h1] at h
      exact h
    rcases h2 : apply_saved_mic_monitor_preference now
        { s1 with poll_interval_ms := POLL_INTERVAL_CONNECTED_MS,
                  poll_timer_active := true } with ⟨s2, l2⟩
    have e2 : tx_fields s2 =
        tx_fields { s1 with poll_interval_ms := POLL_INTERVAL_CONNECTED_MS,
                            poll_timer_active := true } := by
      have h := tx_fields_apply_saved now
        { s1 with poll_interval_ms := POLL_INTERVAL_CONNECTED_MS,
                  poll_timer_active := true }
      rw [h2] at h
      exact h
    rcases h3 : request_feature_states now s2 with ⟨s3, l3⟩
    have e3 : tx_fields s3 = tx_fields s2 := by
      have h := tx_fields_request_features now s2
      rw [h3] at h
      exact h
    simp only [h2, h3]
    exact (e3.trans e2).trans e1

lemma tx_fields_on_disconnect_busy (now : Int) (s : St) :
    tx_fields (on_disconnect now s).1 =
      (s.tx_timeout_backoff_ms, s.tx_suspended_until, s.timeout_tx_failures,
       false, s.transient_tx_failures) := by
  unfold on_disconnect
  exact tx_fields_apply_disconnected now s true true true _

lemma tx_fields_handle_battery (now : Int) (s : St) (value : Nat) :
    tx_fields (handle_battery_state_packet now s value).1 = tx_fields s := by
  unfold handle_battery_state_packet
  split
  · rfl
  · split
    · rfl
    · have := tx_fields_maybe_notify now { s with battery := some value }
      exact this

lemma tx_fields_mic_state_packet (now : Int) (s : St) (value : Nat) :
    tx_fields (handle_mic_monitor_state_packet now s value).1 = tx_fields s := by
  unfold handle_mic_monitor_state_packet
  split
  · rfl
  · split
    · have := tx_fields_handle_reported now
        { s with mic_state_reported := true, mic_probe_timer_active := false }
        (value = 0x01)
      exact this
    · rfl

lemma tx_fields_mic_feedback_packet (now : Int) (s : St) (value : Nat) :
    tx_fields (handle_mic_monitor_feedback_packet now s value).1 = tx_fields s := by
  unfold handle_mic_monitor_feedback_packet
  split
  · rfl
  · have := tx_fields_handle_reported now
      { s with mic_state_reported := true, mic_probe_timer_active := false }
      (0 < value)
    exact this

/-! Battery-field tracking: which calls leave `battery` unchanged, which
force it to `none`, and the single call that assigns a checked value. -/

lemma battery_send_command (now : Int) (s : St) (cmd : Cmd) (a : Bool) :
    (send_command now s cmd a).1.battery = s.battery := by
  obtain ⟨q, r, ok, l, h⟩ := send_command_spec now s cmd a
  rw [h]

lemma battery_send_conn (now : Int) (s : St) (c : Bool) :
    (send_connection_notification now s c).battery = s.battery := by
  obtain ⟨p, e, t, h⟩ := send_conn_spec now s c
  rw [h]

lemma battery_maybe_notify (now : Int) (s : St) :
    (maybe_notify_battery now s).battery = s.battery := by
  obtain ⟨lv, p, t, h⟩ := maybe_notify_spec now s
  rw [h]

lemma battery_set_mic (s : St) (a p : Bool) :
    (set_mic_monitor_state s a p).1.battery = s.battery := by
  obtain ⟨m, l, h⟩ := set_mic_spec s a p
  rw [h]

lemma battery_apply_saved (now : Int) (s : St) :
    (apply_saved_mic_monitor_preference now s).1.battery = s.battery := by
  unfold apply_saved_mic_monitor_preference
  cases hms : s.mic_monitor_state_setting with
  | none => rfl
  | some cached =>
    rcases h1 : set_mic_monitor_state s cached false with ⟨s1, l1⟩
    have e1 : s1.battery = s.battery := by
      have h := battery_set_mic s cached false
      rw [h1] at h
      exact h
    rcases h2 : send_command now s1
        (if cached then Command.MICROPHONE_MONITOR
         else Command.MICROPHONE_MONITOR_OFF) false with ⟨s2, ok2, l2⟩
    have e2 : s2.battery = s1.battery := by
      have h := battery_send_command now s1
        (if cached then Command.MICROPHONE_MONITOR
         else Command.MICROPHONE_MONITOR_OFF) false
      rw [h2] at h
      exact h
    simp only [h1, h2]
    exact e2.trans e1

lemma battery_handle_reported (now : Int) (s : St) (reported : Bool) :
    (handle_reported_mic_monitor_state now s reported).1.battery = s.battery := by
  unfold handle_reported_mic_monitor_state
  cases hms : s.mic_monitor_state_setting with
  | none =>
    rcases h1 : set_mic_monitor_state s reported false with ⟨s1, l1⟩
    have e1 : s1.battery = s.battery := by
      have h := battery_set_mic s reported false
      rw [h1] at h
      exact h
    simp only [h1]
    exact e1
  | some cached =>
    rcases h1 : set_mic_monitor_state s cached false with ⟨s1, l1⟩
    have e1 : s1.battery = s.battery := by
      have h := battery_set_mic s cached false
      rw [h1] at h
      exact h
    rcases h2 : send_command now s1
        (if cached then Command.MICROPHONE_MONITOR
         else Command.MICROPHONE_MONITOR_OFF) false with ⟨s2, ok2, l2⟩
    have e2 : s2.battery = s1.battery := by
      have h := battery_send_command now s1
        (if cached then Command.MICROPHONE_MONITOR
         else Command.MICROPHONE_MONITOR_OFF) false
      rw [h2] at h
      exact h
    simp only [h1, h2]
    split
    · exact e2.trans e1
    · exact e1

lemma battery_request_mic (now : Int) (s : St) :
    (request_mic_monitor_state now s).1.battery = s.battery := by
  unfold request_mic_monitor_state
  split
  · rfl
  · rcases h1 : send_command now { s with mic_state_reported := false }
        Command.MIC_MONITOR_STATE true with ⟨s1, ok1, l1⟩
    have e1 : s1.battery = s.battery := by
      have h := battery_send_command now { s with mic_state_reported := false }
        Command.MIC_MONITOR_STATE true
      rw [h1] at h
      exact h
    simp only [h1]
    exact e1

lemma battery_request_features (now : Int) (s : St) :
    (request_feature_states now s).1.battery = s.battery := by
  unfold request_feature_states
  split
  · rfl
  · rcases h1 : send_command now s Command.STATUS_REQUEST true with ⟨s1, ok1, l1⟩
    rcases h2 : send_command now s1 Command.SLEEP_STATE true with ⟨s2, ok2, l2⟩
    rcases h3 : send_command now s2 Command.VOICE_STATE true with ⟨s3, ok3, l3⟩
    rcases h4 : request_mic_monitor_state now s3 with ⟨s4, l4⟩
    have e1 : s1.battery = s.battery := by
      have h := battery_send_command now s Command.STATUS_REQUEST true
      rw [h1] at h; exact h
    have e2 : s2.battery = s1.battery := by
      have h := battery_send_command now s1 Command.SLEEP_STATE true
      rw [h2] at h; exact h
    have e3 : s3.battery = s2.battery := by
      have h := battery_send_command now s2 Command.VOICE_STATE true
      rw [h3] at h; exact h
    have e4 : s4.battery = s3.battery := by
      have h := battery_request_mic now s3
      rw [h4] at h; exact h
    simp only [h1, h2, h3, h4]
    exact ((e4.trans e3).trans e2).trans e1

lemma battery_on_connect (now : Int) (s : St) :
    (on_connect now s).1.battery = s.battery := by
  simp only [on_connect]
  split
  · rfl
  · generalize h1 : send_connection_notification now
      { s with status := ConnectionStatus.CONNECTED,
               mic_state_reported := false } true = s1
    have e1 : s1.battery = s.battery := by
      have h := battery_send_conn now
        { s with status := ConnectionStatus.CONNECTED,
                 mic_state_reported := false } true
      rw [h1] at h
      exact h
    rcases h2 : apply_saved_mic_monitor_preference now
        { s1 with poll_interval_ms := POLL_INTERVAL_CONNECTED_MS,
                  poll_timer_active := true } with ⟨s2, l2⟩
    have e2 : s2.battery = s1.battery := by
      have h := battery_apply_saved now
        { s1 with poll_interval_ms := POLL_INTERVAL_CONNECTED_MS,
                  poll_timer_active := true }
      rw [h2] at h
      exact h
    rcases h3 : request_feature_states now s2 with ⟨s3, l3⟩
    have e3 : s3.battery = s2.battery := by
      have h := battery_request_features now s2
      rw [h3] at h
      exact h
    simp only [h2, h3]
    exact (e3.trans e2).trans e1

lemma battery_apply_disconnected (now : Int) (s : St) (nt lg cb : Bool)
    (pi : Option Nat) :
    (apply_disconnected_state now s nt lg cb pi).1.battery = none := by
  obtain ⟨lv, p, e, t, pim, pta, l, h⟩ := apply_disconnected_spec now s nt lg cb pi
  rw [h]

lemma battery_on_disconnect (now : Int) (s : St) :
    (on_disconnect now s).1.battery = none := by
  unfold on_disconnect
  exact battery_apply_disconnected now s true true true _

lemma battery_flush_conn (now : Int) (s : St) :
    (flush_connection_notification now s).1.battery = s.battery := by
  simp only [flush_connection_notification]
  repeat' split
  all_goals rfl

lemma battery_flush_battery (now : Int) (s : St) :
    (flush_battery_notification now s).1.battery = s.battery := by
  simp only [flush_battery_notification]
  repeat' split
  all_goals rfl

lemma battery_queue_batt (now : Int) (s : St) (threshold b : Nat) :
    (queue_battery_notification now s threshold b).battery = s.battery := by
  obtain ⟨p, t, h⟩ := queue_batt_spec now s threshold b
  rw [h]

lemma battery_start_open (s : St) :
    (start_device_open s).battery = s.battery := by
  unfold start_device_open
  repeat' split
  all_goals rfl

lemma battery_quit (s : St) :
    (quit s).battery = s.battery := by
  simp only [quit, invalidate_tx_session, drain_tx_queue,
    clear_pending_connection_notifications, clear_pending_battery_notifications,
    stop_reader]
  split
  · rfl
  · rfl

/-! Association-list dictionary lemmas for the cooldown-stamp map. -/

lemma alist_get_put_same (l : List (Nat × Int)) (k : Nat) (v : Int) :
    alist_get (alist_put l k v) k = some v := by
  simp [alist_get, alist_put]

lemma find_filter_ne (k k' : Nat) (h : k' ≠ k) :
    ∀ l : List (Nat × Int),
      (l.filter (fun p => ¬p.1 = k)).find? (fun p => p.1 = k') =
        l.find? (fun p => p.1 = k') := by
  intro l
  induction l with
  | nil => rfl
  | cons a t ih =>
    rw [List.filter_cons]
    by_cases ha : a.1 = k
    · rw [if_neg (by simp [ha])]
      rw [List.find?_cons_of_neg t (by simp [ha]; exact fun hk => h hk.symm)]
      exact ih
    · rw [if_pos (by simp [ha])]
      by_cases ha2 : a.1 = k'
      · rw [List.find?_cons_of_pos _ (by simp [ha2]),
          List.find?_cons_of_pos t (by simp [ha2])]
      · rw [List.find?_cons_of_neg _ (by simp [ha2]),
          List.find?_cons_of_neg t (by simp [ha2])]
        exact ih

lemma alist_get_put_ne (l : List (Nat × Int)) (k : Nat) (v : Int) (k' : Nat)
    (h : k' ≠ k) :
    alist_get (alist_put l k v) k' = alist_get l k' := by
  unfold alist_get alist_put
  rw [List.find?_cons_of_neg _ (by simp; exact fun hk => h hk.symm)]
  rw [find_filter_ne k k' h l]

lemma binv_mono {s : St} {t t' : Int} (h : binv s t) (hle : t ≤ t') :
    binv s t' := by
  refine ⟨fun p hp v hv => ?_, fun k v hv => ?_⟩
  · exact le_trans (h.1 p hp v hv) hle
  · exact le_trans (h.2 k v hv) hle

lemma queue_batt_last (now : Int) (s : St) (thr b : Nat) :
    (queue_battery_notification now s thr b).battery_notification_last_sent =
      s.battery_notification_last_sent := by
  obtain ⟨p, t, h⟩ := queue_batt_spec now s thr b
  rw [h]

lemma queue_batt_pending_cases (now : Int) (s : St) (thr b : Nat) :
    (queue_battery_notification now s thr b).pending_battery_notification =
      s.pending_battery_notification ∨
    (cool_ok s thr now ∧
      ((s.pending_battery_notification = none ∧
        (queue_battery_notification now s thr b).pending_battery_notification =
          some { threshold := thr, battery := b, count := 1 }) ∨
       (∃ p0, s.pending_battery_notification = some p0 ∧
        (queue_battery_notification now s thr b).pending_battery_notification =
          some { threshold := min p0.threshold thr,
                 battery := min p0.battery b,
                 count := p0.count + 1 }))) := by
  simp only [queue_battery_notification]
  split
  · exact Or.inl rfl
  · split
    · exact Or.inl rfl
    · split
      · exact Or.inl rfl
      · rename_i hbl
        refine Or.inr ⟨?_, ?_⟩
        · intro v hv
          rw [hv] at hbl
          simp only [decide_eq_true_eq] at hbl
          simp only [BATTERY_NOTIFICATION_COOLDOWN_MS] at hbl ⊢
          omega
        · cases hpd : s.pending_battery_notification with
          | none => exact Or.inl ⟨rfl, by simp [hpd]⟩
          | some p0 => exact Or.inr ⟨p0, rfl, by simp [hpd]⟩

lemma queue_batt_pending (now : Int) (s : St) (thr b : Nat)
    (hinv : ∀ p, s.pending_battery_notification = some p →
      cool_ok s p.threshold now) :
    ∀ p, (queue_battery_notification now s thr b).pending_battery_notification =
        some p → cool_ok s p.threshold now := by
  intro p hp
  rcases queue_batt_pending_cases now s thr b with heq | ⟨hcool, hcase⟩
  · rw [heq] at hp
    exact hinv p hp
  · rcases hcase with ⟨hnone, hres⟩ | ⟨p0, hp0, hres⟩
    · rw [hres] at hp
      injection hp with hp
      rw [← hp]
      exact hcool
    · rw [hres] at hp
      injection hp with hp
      rw [← hp]
      have h0 := hinv p0 hp0
      rcases Nat.le_total p0.threshold thr with hle | hle
      · simpa [min_eq_left hle] using h0
      · simpa [min_eq_right hle] using hcool

lemma flush_batt_spec (now : Int) (s : St) :
    (∃ s1 logs, flush_battery_notification now s = (s1, none, logs) ∧
       s1.battery_notification_last_sent = s.battery_notification_last_sent ∧
       s1.pending_battery_notification = none) ∨
    (∃ p s1 logs, s.pending_battery_notification = some p ∧
       flush_battery_notification now s =
         (s1, some (Note.battery_low p.threshold p.battery p.count), logs) ∧
       s1.battery_notification_last_sent =
         (alist_put s.battery_notification_last_sent p.threshold now) ∧
       s1.pending_battery_notification = none) := by
  cases hp : s.pending_battery_notification with
  | none =>
    left
    simp only [flush_battery_notification, hp]
    exact ⟨_, _, rfl, rfl, rfl⟩
  | some p =>
    simp only [flush_battery_notification, hp]
    split
    · left
      exact ⟨_, _, rfl, rfl, rfl⟩
    · right
      exact ⟨p, _, _, rfl, rfl, rfl, rfl⟩

/-- Induction core for the battery-notification cooldown: running any
monotone-time suffix from a state satisfying the invariant extends the
emission history without ever violating the cooldown. -/
lemma brun_spec (evs : List BEv) :
    ∀ (s : St) (t : Int) (acc : List (Int × Nat)),
      binv s t →
      bhist s acc →
      List.Chain' (fun a b => a ≤ b) (t :: evs.map bev_time) →
      cooldown_respected acc →
      cooldown_respected (acc ++ (brun s evs).2) := by
  induction evs with
  | nil =>
    intro s t acc _ _ _ hacc
    simpa [brun] using hacc
  | cons e es ih =>
    intro s t acc hinv hhist hchain hacc
    obtain ⟨hte, hchain'⟩ := List.chain'_cons.mp (by simpa using hchain)
    cases e with
    | queue now thr b =>
      have hmono := binv_mono hinv hte
      have hinvq : binv (queue_battery_notification now s thr b) now := by
        constructor
        · intro p hp v hv
          rw [queue_batt_last] at hv
          exact queue_batt_pending now s thr b (fun q hq => hmono.1 q hq) p hp v hv
        · intro k v hv
          rw [queue_batt_last] at hv
          exact le_trans (hinv.2 k v hv) hte
      have hhistq : bhist (queue_battery_notification now s thr b) acc := by
        intro pr hpr
        obtain ⟨v, hg, hle⟩ := hhist pr hpr
        refine ⟨v, ?_, hle⟩
        rw [queue_batt_last]
        exact hg
      have h := ih (queue_battery_notification now s thr b) now acc hinvq hhistq
        (by simpa using hchain') hacc
      simpa [brun, bstep] using h
    | clear now =>
      have hinv1 : binv (clear_pending_battery_notifications s) now := by
        constructor
        · intro p hp
          simp [clear_pending_battery_notifications] at hp
        · intro k v hv
          exact le_trans (hinv.2 k v hv) hte
      have hhist1 : bhist (clear_pending_battery_notifications s) acc := hhist
      have h := ih (clear_pending_battery_notifications s) now acc hinv1 hhist1
        (by simpa using hchain') hacc
      simpa [brun, bstep] using h
    | disconnect now =>
      obtain ⟨lv, p, e1, t1, pim, pta, l, hd⟩ := apply_disconnected_spec now s
        true true true (some POLL_INTERVAL_DISCONNECTED_MS)
      have hinv1 : binv (apply_disconnected_state now s true true true
          (some POLL_INTERVAL_DISCONNECTED_MS)).1 now := by
        rw [hd]
        constructor
        · intro p hp
          simp at hp
        · intro k v hv
          exact le_trans (hinv.2 k v hv) hte
      have hhist1 : bhist (apply_disconnected_state now s true true true
          (some POLL_INTERVAL_DISCONNECTED_MS)).1 acc := by
        rw [hd]
        exact hhist
      have h := ih _ now acc hinv1 hhist1 (by simpa using hchain') hacc
      simpa [brun, bstep] using h
    | flush now =>
      rcases flush_batt_spec now s with
        ⟨s1, logs, hfl, hlast, hpend⟩ | ⟨p, s1, logs, hp, hfl, hlast, hpend⟩
      · have hb : bstep s (BEv.flush now) = (s1, none) := by
          simp [bstep, hfl]
        have hinv1 : binv s1 now := by
          constructor
          · intro q hq
            rw [hpend] at hq
            cases hq
          · intro k v hv
            rw [hlast] at hv
            exact le_trans (hinv.2 k v hv) hte
        have hhist1 : bhist s1 acc := by
          intro pr hpr
          obtain ⟨v, hg, hle⟩ := hhist pr hpr
          refine ⟨v, ?_, hle⟩
          rw [hlast]
          exact hg
        have h := ih s1 now acc hinv1 hhist1 (by simpa using hchain') hacc
        simpa [brun, hb] using h
      · have hb : bstep s (BEv.flush now) = (s1, some (now, p.threshold)) := by
          simp [bstep, hfl]
        have hcool : ∀ v,
            alist_get s.battery_notification_last_sent p.threshold = some v →
            v + BATTERY_NOTIFICATION_COOLDOWN_MS ≤ now :=
          fun v hv => (binv_mono hinv hte).1 p hp v hv
        have hpair : cooldown_respected (acc ++ [(now, p.threshold)]) := by
          unfold cooldown_respected at hacc ⊢
          rw [List.pairwise_append]
          refine ⟨hacc, List.pairwise_singleton _ _, ?_⟩
          intro a ha b hbmem hab
          simp only [List.mem_singleton] at hbmem
          subst hbmem
          obtain ⟨v, hg, hle⟩ := hhist a ha
          have hab' : a.2 = p.threshold := hab
          have hg' : alist_get s.battery_notification_last_sent p.threshold =
              some v := by
            rw [← hab']
            exact hg
          have := hcool v hg'
          omega
        have hhist1 : bhist s1 (acc ++ [(now, p.threshold)]) := by
          intro pr hpr
          rcases List.mem_append.mp hpr with hin | hin
          · obtain ⟨v, hg, hle⟩ := hhist pr hin
            by_cases hk : pr.2 = p.threshold
            · refine ⟨now, ?_, ?_⟩
              · rw [hlast, hk]
                exact alist_get_put_same _ _ _
              · exact le_trans hle (le_trans (hinv.2 pr.2 v hg) hte)
            · refine ⟨v, ?_, hle⟩
              rw [hlast, alist_get_put_ne _ _ _ _ hk]
              exact hg
          · simp only [List.mem_singleton] at hin
            subst hin
            refine ⟨now, ?_, le_refl now⟩
            rw [hlast]
            exact alist_get_put_same _ _ _
        have hinv1 : binv s1 now := by
          constructor
          · intro q hq
            rw [hpend] at hq
            cases hq
          · intro k v hv
            rw [hlast] at hv
            by_cases hk : k = p.threshold
            · rw [hk, alist_get_put_same] at hv
              injection hv with hv
              omega
            · rw [alist_get_put_ne _ _ _ _ hk] at hv
              exact le_trans (hinv.2 k v hv) hte
        have h := ih s1 now (acc ++ [(now, p.threshold)]) hinv1 hhist1
          (by simpa using hchain') hpair
        have hout : (brun s (BEv.flush now :: es)).2 =
            (now, p.threshold) :: (brun s1 es).2 := by
          simp [brun, hb]
        rw [hout]
        unfold cooldown_respected at h ⊢
        simpa [List.append_assoc] using h

lemma record_backoff_ms (now : Int) (s : St) (cn m : String) :
    (record_timeout_tx_failure now s cn m).1.tx_timeout_backoff_ms =
      next_backoff s.tx_timeout_backoff_ms := by
  obtain ⟨r, l, h⟩ := record_timeout_spec now s cn m
  rw [h]

lemma min_double (k : Nat) :
    min (min (4000 * 2 ^ k) 60000 * 2) 60000 = min (4000 * 2 ^ (k + 1)) 60000 := by
  have h : (4000 : Nat) * 2 ^ (k + 1) = 4000 * 2 ^ k * 2 := by ring
  rw [h]
  omega

lemma iter_backoff (now : Int) (cn m : String) (s : St)
    (h0 : s.tx_timeout_backoff_ms = 0) :
    ∀ n, 1 ≤ n → (iter_timeout_failures now cn m n s).tx_timeout_backoff_ms =
      min (TX_TIMEOUT_BACKOFF_INITIAL_MS * 2 ^ (n - 1)) TX_TIMEOUT_BACKOFF_MAX_MS := by
  intro n
  induction n with
  | zero => intro h; exact absurd h (by decide)
  | succ k ih =>
    intro _
    rcases Nat.eq_zero_or_pos k with hk | hk
    · subst hk
      show (record_timeout_tx_failure now
        (iter_timeout_failures now cn m 0 s) cn m).1.tx_timeout_backoff_ms = _
      rw [show iter_timeout_failures now cn m 0 s = s from rfl, record_backoff_ms]
      simp [next_backoff, h0, TX_TIMEOUT_BACKOFF_INITIAL_MS,
        TX_TIMEOUT_BACKOFF_MAX_MS]
    · have hb := ih hk
      show (record_timeout_tx_failure now
        (iter_timeout_failures now cn m k s) cn m).1.tx_timeout_backoff_ms = _
      rw [record_backoff_ms, hb]
      obtain ⟨j, rfl⟩ : ∃ j, k = j + 1 := ⟨k - 1, (Nat.succ_pred_eq_of_pos hk).symm⟩
      have hpos : 0 < min (TX_TIMEOUT_BACKOFF_INITIAL_MS * 2 ^ (j + 1 - 1))
          TX_TIMEOUT_BACKOFF_MAX_MS := by
        have h2 : 0 < 2 ^ (j + 1 - 1) := pow_pos (by norm_num) _
        exact lt_min (Nat.mul_pos (by decide) h2) (by decide)
      unfold next_backoff
      rw [if_neg (Nat.not_le.mpr hpos)]
      simp only [TX_TIMEOUT_BACKOFF_INITIAL_MS, TX_TIMEOUT_BACKOFF_MAX_MS,
        Nat.add_sub_cancel]
      exact min_double j

lemma cleared_iff_tx_fields (s : St) :
    tx_failure_state_cleared s ↔ tx_fields s = (0, 0, 0, false, 0) := by
  simp [tx_failure_state_cleared, tx_fields, Prod.ext_iff, and_assoc]

lemma cleared_connection_packet (now : Int) (s : St) (value : Nat)
    (h : tx_fields s = (0, 0, 0, false, 0)) :
    tx_fields (handle_connection_state_packet now s value).1 = (0, 0, 0, false, 0) := by
  have hf : s.tx_timeout_backoff_ms = 0 ∧ s.tx_suspended_until = 0 ∧
      s.timeout_tx_failures = 0 ∧ s.control_channel_busy = false ∧
      s.transient_tx_failures = 0 := by
    simpa [tx_fields, Prod.ext_iff] using h
  unfold handle_connection_state_packet
  split
  · rw [tx_fields_on_disconnect_busy]
    simp [hf.1, hf.2.1, hf.2.2.1, hf.2.2.2.2]
  · split
    · rw [tx_fields_on_connect]; exact h
    · exact h

lemma handle_packet_clears (now : Int) (s : St) (code value : Nat)
    (rest : List Nat) :
    tx_fields (handle_packet now s (0x21 :: 0xBB :: code :: value :: rest)).1 =
      (0, 0, 0, false, 0) := by
  obtain ⟨r, l, hc⟩ := clear_tx_spec { s with transient_tx_failures := 0 }
  simp only [handle_packet, hc]
  norm_num
  split
  · exact cleared_connection_packet now _ value rfl
  · rfl
  · rfl
  · rw [tx_fields_mic_state_packet]; rfl
  · rw [tx_fields_handle_battery]; rfl
  · rfl
  · rfl
  · rw [tx_fields_mic_feedback_packet]; rfl
  · exact cleared_connection_packet now _ value rfl
  · rfl

/-- C1 (amended).  (i) After `N ≥ 1` consecutive timeout-classified
transmit failures applied to a reset backoff state, the busy window equals
`min(4000 · 2^(N−1), 60000)` ms.  (ii) A single successful transmission
resets the timeout counter, the window, the suspension deadline and the
busy flag.  (iii) A single inbound frame with the valid `21 BB` magic
prefix **and the minimum length of 4 bytes** does the same (the amendment:
the length floor is also required; a shorter frame with a valid prefix is
discarded before the reset). -/
theorem backoff_window_and_reset :
    (∀ (now : Int) (cn m : String) (s : St) (n : Nat),
       s.tx_timeout_backoff_ms = 0 → 1 ≤ n →
       (iter_timeout_failures now cn m n s).tx_timeout_backoff_ms =
         min (TX_TIMEOUT_BACKOFF_INITIAL_MS * 2 ^ (n - 1))
           TX_TIMEOUT_BACKOFF_MAX_MS) ∧
    (∀ (now : Int) (s : St) (cn : String) (a : Bool),
       tx_failure_state_cleared (process_tx_result now s cn a true none).1) ∧
    (∀ (now : Int) (s : St) (code value : Nat) (rest : List Nat),
       tx_failure_state_cleared
         (handle_packet now s (0x21 :: 0xBB :: code :: value :: rest)).1) := by
  refine ⟨fun now cn m s n h0 hn => iter_backoff now cn m s h0 n hn, ?_, ?_⟩
  · intro now s cn a
    obtain ⟨r, l, hc⟩ := clear_tx_spec { s with transient_tx_failures := 0 }
    simp only [process_tx_result, hc]
    simp [tx_failure_state_cleared]
  · intro now s code value rest
    exact (cleared_iff_tx_fields _).mpr (handle_packet_clears now s code value rest)

/-- C1 counterexample: after one timeout failure (window 4000 ms, busy),
a 2-byte inbound frame consisting of exactly the valid magic prefix does
NOT reset the backoff — the handler discards frames shorter than 4 bytes
before the proof-of-life reset, so the claim as stated fails. -/
theorem short_magic_frame_no_reset :
    (handle_packet 5 backoff_ex_st [0x21, 0xBB]).1 = backoff_ex_st ∧
    backoff_ex_st.tx_timeout_backoff_ms = 4000 ∧
    backoff_ex_st.control_channel_busy = true ∧
    backoff_ex_st.timeout_tx_failures = 1 := by
  refine ⟨rfl, by decide, by decide, by decide⟩

/-- Witness for C1 at concrete inputs: five consecutive timeout failures
cap the window at 60000 ms; a successful transmission and a well-formed
magic frame both clear the backoff state. -/
theorem backoff_window_and_reset_witness :
    (iter_timeout_failures 0 "PING" "timeout" 5 init_st).tx_timeout_backoff_ms = 60000 ∧
    tx_failure_state_cleared (process_tx_result 0 backoff_ex_st "PING" true true none).1 ∧
    tx_failure_state_cleared (handle_packet 0 backoff_ex_st [0x21, 0xBB, 0x0B, 50]).1 := by
  have h := backoff_window_and_reset
  refine ⟨?_, h.2.1 0 backoff_ex_st "PING" true, h.2.2 0 backoff_ex_st 0x0B 50 []⟩
  have he := h.1 0 "PING" "timeout" init_st 5 rfl (by decide)
  rw [he]
  decide

/-- C7.  Along every monotone-time trace of battery-notification events —
arbitrary `_queue_battery_notification` calls (subsuming every threshold
crossing), debounce-timer flushes, pending-clears, and full disconnect
transitions (covering disconnect/reconnect cycles, which leave the
per-threshold cooldown stamps intact) — any two emitted notices for the
same threshold are at least the 900-second cooldown apart: the second of
a pair is never emitted within the cooldown period after the first. -/
theorem battery_cooldown_never_violated (evs : List BEv)
    (hmono : bmono 0 evs) :
    cooldown_respected (brun init_st evs).2 := by
  have h1 : binv init_st 0 := by
    constructor
    · intro p hp
      simp [init_st] at hp
    · intro k v hv
      simp [init_st, alist_get] at hv
  have h2 : bhist init_st [] := by
    intro pr hpr
    simp at hpr
  have h4 : cooldown_respected [] := List.Pairwise.nil
  have h := brun_spec evs init_st 0 [] h1 h2 hmono h4
  simpa using h

/-- Witness for C7 on a concrete trace: threshold 10 notified at t=5 ms
and again at t=900006 ms (after the cooldown), across a disconnect. -/
theorem battery_cooldown_never_violated_witness :
    cooldown_respected (brun init_st bev_trace_ex).2 :=
  battery_cooldown_never_violated bev_trace_ex (by
    unfold bmono bev_trace_ex
    simp only [List.map_cons, List.map_nil, bev_time, List.chain'_cons,
      List.chain'_singleton]
    exact ⟨by decide, by decide, by decide, by decide, by decide, trivial⟩)

/-- C2.  A command submitted while the backoff suspension window is active
(`_tx_suspended_until` set and not yet reached) is rejected synchronously:
`_send_command` returns `False` and the state — in particular the transmit
queue — is unchanged, so nothing is enqueued and no write can follow. -/
theorem send_rejected_while_busy (now : Int) (s : St) (cmd : Cmd)
    (allow : Bool) (h1 : 0 < s.tx_suspended_until)
    (h2 : now < s.tx_suspended_until) :
    (send_command now s cmd allow).1 = s ∧
    (send_command now s cmd allow).2.1 = false := by
  unfold send_command
  by_cases hd : s.device_ready <;> simp [hd, h1, h2]

/-- Witness for C2 at a concrete busy state. -/
theorem send_rejected_while_busy_witness :
    (send_command 10 busy_ex_st Command.PING true).1 = busy_ex_st ∧
    (send_command 10 busy_ex_st Command.PING true).2.1 = false :=
  send_rejected_while_busy 10 busy_ex_st Command.PING true
    (by decide) (by decide)

/-- C5.  A battery frame received while Connected whose value exceeds 100
leaves the whole state unchanged (battery value, pending notifications and
debounce timer included) and produces exactly one log line. -/
theorem invalid_battery_ignored (now : Int) (s : St) (value : Nat)
    (hconn : s.status = ConnectionStatus.CONNECTED) (hval : 100 < value) :
    (handle_battery_state_packet now s value).1 = s ∧
    (handle_battery_state_packet now s value).2.length = 1 := by
  unfold handle_battery_state_packet
  simp [hconn, Nat.not_le_of_lt hval, Nat.not_le.mpr hval]

/-- Witness for C5: a `0x0B` value of 150 while connected. -/
theorem invalid_battery_ignored_witness :
    (handle_battery_state_packet 0 connected_ex_st 150).1 = connected_ex_st ∧
    (handle_battery_state_packet 0 connected_ex_st 150).2.length = 1 :=
  invalid_battery_ignored 0 connected_ex_st 150 (by decide) (by decide)

lemma handle_io_teardown (now : Int) (s : St) (m : String)
    (h : s.shutting_down = false) :
    (handle_device_io_error now s m).1.device_ready = false ∧
    (handle_device_io_error now s m).1.status = ConnectionStatus.DISCONNECTED ∧
    (handle_device_io_error now s m).1.tx_session_id = s.tx_session_id + 1 ∧
    (handle_device_io_error now s m).1.tx_queue = [] ∧
    (handle_device_io_error now s m).1.open_retry_timer_active = true ∧
    (handle_device_io_error now s m).1.battery = none := by
  obtain ⟨r1, l1, hc1⟩ := clear_tx_spec
    { s with tx_session_id := s.tx_session_id + 1,
             tx_queue := [], transient_tx_failures := 0 }
  obtain ⟨r2, l2, hc2⟩ := clear_tx_spec
    { s with last_io_error := some m,
             tx_session_id := s.tx_session_id + 1,
             tx_queue := [], transient_tx_failures := 0 }
  obtain ⟨lv1, p1, e1, t1, pim1, pta1, ll1, hd1⟩ := apply_disconnected_spec now
    { s with tx_session_id := s.tx_session_id + 1,
             tx_queue := [],
             transient_tx_failures := 0, tx_timeout_backoff_ms := 0,
             tx_suspended_until := 0, timeout_tx_failures := 0,
             control_channel_busy := false, repeating_log_state := r1,
             device_ready := false, reader_running := false }
    true false true (some POLL_INTERVAL_DISCONNECTED_MS)
  obtain ⟨lv2, p2, e2, t2, pim2, pta2, ll2, hd2⟩ := apply_disconnected_spec now
    { s with last_io_error := some m,
             tx_session_id := s.tx_session_id + 1,
             tx_queue := [], transient_tx_failures := 0,
             tx_timeout_backoff_ms := 0, tx_suspended_until := 0,
             timeout_tx_failures := 0, control_channel_busy := false,
             repeating_log_state := r2, device_ready := false,
             reader_running := false }
    true false true (some POLL_INTERVAL_DISCONNECTED_MS)
  simp only [handle_device_io_error, invalidate_tx_session, drain_tx_queue,
    stop_reader]
  rw [if_neg (by simp [h] : ¬(s.shutting_down = true))]
  split
  · simp only [hc1, hd1]
    simp
  · simp only [hc2, hd2]
    simp

lemma battery_handle_io (now : Int) (s : St) (m : String)
    (h : battery_ok s = true) :
    battery_ok (handle_device_io_error now s m).1 = true := by
  by_cases hsd : s.shutting_down = true
  · unfold handle_device_io_error
    rw [if_pos hsd]
    exact h
  · have hb := (handle_io_teardown now s m (by simpa using hsd)).2.2.2.2.2
    unfold battery_ok
    rw [hb]

lemma battery_ok_congr {s1 s2 : St} (h : s1.battery = s2.battery) :
    battery_ok s1 = battery_ok s2 := by
  unfold battery_ok
  rw [h]

lemma battery_record_timeout (now : Int) (s : St) (cn m : String) :
    (record_timeout_tx_failure now s cn m).1.battery = s.battery := by
  obtain ⟨r, l, h⟩ := record_timeout_spec now s cn m
  rw [h]

lemma battery_clear_tx (s : St) :
    (clear_tx_timeout_backoff s).1.battery = s.battery := by
  obtain ⟨r, l, h⟩ := clear_tx_spec s
  rw [h]

lemma battery_process_tx (now : Int) (s : St) (cn : String) (a sent : Bool)
    (io : Option String) (h : battery_ok s = true) :
    battery_ok (process_tx_result now s cn a sent io).1 = true := by
  cases io with
  | some e =>
    simp only [process_tx_result]
    split
    · split
      · rcases h1 : record_timeout_tx_failure now
            { s with transient_tx_failures := 0 } cn
            ("TX " ++ cn ++ " failed: " ++ e) with ⟨s1, l1⟩
        have e1 : s1.battery = s.battery := by
          have hb := battery_record_timeout now
            { s with transient_tx_failures := 0 } cn
            ("TX " ++ cn ++ " failed: " ++ e)
          rw [h1] at hb
          exact hb
        simp only [h1]
        rw [battery_ok_congr e1]
        exact h
      · rcases h1 : record_transient_tx_failure s
            ("TX " ++ cn ++ " failed: " ++ e) with ⟨s1, l1⟩
        have e1 : s1.battery = s.battery := by
          have hb : (record_transient_tx_failure s
              ("TX " ++ cn ++ " failed: " ++ e)).1.battery = s.battery := rfl
          rw [h1] at hb
          exact hb
        have hok1 : battery_ok s1 = true := by
          rw [battery_ok_congr e1]
          exact h
        simp only [h1]
        split
        · rcases h2 : handle_device_io_error now
              { s1 with transient_tx_failures := 0 }
              ("TX " ++ cn ++ " failed: " ++ e) with ⟨s2, l2⟩
          have hok2 := battery_handle_io now
            { s1 with transient_tx_failures := 0 }
            ("TX " ++ cn ++ " failed: " ++ e) hok1
          rw [h2] at hok2
          simp only [h2]
          exact hok2
        · exact hok1
    · rcases h2 : handle_device_io_error now
          { s with transient_tx_failures := 0 }
          ("TX " ++ cn ++ " failed: " ++ e) with ⟨s2, l2⟩
      have hok2 := battery_handle_io now
        { s with transient_tx_failures := 0 }
        ("TX " ++ cn ++ " failed: " ++ e) h
      rw [h2] at hok2
      simp only [h2]
      exact hok2
  | none =>
    simp only [process_tx_result]
    split
    · rcases h1 : clear_tx_timeout_backoff
          { s with transient_tx_failures := 0 } with ⟨s1, l1⟩
      have e1 : s1.battery = s.battery := by
        have hb := battery_clear_tx { s with transient_tx_failures := 0 }
        rw [h1] at hb
        exact hb
      simp only [h1]
      rw [battery_ok_congr e1]
      exact h
    · split
      · rcases h1 : record_transient_tx_failure s
            ("TX " ++ cn ++ " failed: device handle unavailable.") with ⟨s1, l1⟩
        have e1 : s1.battery = s.battery := by
          have hb : (record_transient_tx_failure s
              ("TX " ++ cn ++ " failed: device handle unavailable.")).1.battery =
              s.battery := rfl
          rw [h1] at hb
          exact hb
        have hok1 : battery_ok s1 = true := by
          rw [battery_ok_congr e1]
          exact h
        simp only [h1]
        split
        · rcases h2 : handle_device_io_error now
              { s1 with transient_tx_failures := 0 }
              ("TX " ++ cn ++ " failed: device handle unavailable.") with ⟨s2, l2⟩
          have hok2 := battery_handle_io now
            { s1 with transient_tx_failures := 0 }
            ("TX " ++ cn ++ " failed: device handle unavailable.") hok1
          rw [h2] at hok2
          simp only [h2]
          exact hok2
        · exact hok1
      · rcases h2 : handle_device_io_error now
            { s with transient_tx_failures := 0 }
            ("TX " ++ cn ++ " failed: device handle unavailable.") with ⟨s2, l2⟩
        have hok2 := battery_handle_io now
          { s with transient_tx_failures := 0 }
          ("TX " ++ cn ++ " failed: device handle unavailable.") h
        rw [h2] at hok2
        simp only [h2]
        exact hok2

lemma battery_on_tx_completed (now : Int) (s : St) (sid : Nat) (cn : String)
    (a sent : Bool) (err : String) (h : battery_ok s = true) :
    battery_ok (on_tx_command_completed now s sid cn a sent err).1 = true := by
  simp only [on_tx_command_completed]
  split
  · exact h
  · split
    · exact h
    · rcases h1 : process_tx_result now s cn a sent
          (if err = "" then none else some err) with ⟨s1, ok1, l1⟩
      have hok := battery_process_tx now s cn a sent
        (if err = "" then none else some err) h
      rw [h1] at hok
      simp only [h1]
      exact hok

lemma battery_handle_connection (now : Int) (s : St) (value : Nat)
    (h : battery_ok s = true) :
    battery_ok (handle_connection_state_packet now s value).1 = true := by
  unfold handle_connection_state_packet
  split
  · unfold battery_ok
    rw [battery_on_disconnect]
  · split
    · rw [battery_ok_congr (battery_on_connect now s)]
      exact h
    · exact h

lemma battery_mic_state_packet (now : Int) (s : St) (value : Nat) :
    (handle_mic_monitor_state_packet now s value).1.battery = s.battery := by
  unfold handle_mic_monitor_state_packet
  split
  · rfl
  · split
    · exact battery_handle_reported now
        { s with mic_state_reported := true, mic_probe_timer_active := false }
        (value = 0x01)
    · rfl

lemma battery_mic_feedback_packet (now : Int) (s : St) (value : Nat) :
    (handle_mic_monitor_feedback_packet now s value).1.battery = s.battery := by
  unfold handle_mic_monitor_feedback_packet
  split
  · rfl
  · exact battery_handle_reported now
      { s with mic_state_reported := true, mic_probe_timer_active := false }
      (0 < value)

lemma battery_handle_battery_packet (now : Int) (s : St) (value : Nat)
    (h : battery_ok s = true) :
    battery_ok (handle_battery_state_packet now s value).1 = true := by
  unfold handle_battery_state_packet
  split
  · exact h
  · split
    · exact h
    · rename_i hle
      have hv : value ≤ 100 := by omega
      have hb := battery_maybe_notify now { s with battery := some value }
      unfold battery_ok
      rw [hb]
      simpa using hv

lemma battery_handle_packet (now : Int) (s : St) (data : List Nat)
    (h : battery_ok s = true) :
    battery_ok (handle_packet now s data).1 = true := by
  simp only [handle_packet]
  split
  · split
    · exact h
    · rcases h1 : clear_tx_timeout_backoff
          { s with transient_tx_failures := 0 } with ⟨s1, l1⟩
      have e1 : s1.battery = s.battery := by
        have hb := battery_clear_tx { s with transient_tx_failures := 0 }
        rw [h1] at hb
        exact hb
      have hok1 : battery_ok s1 = true := by
        rw [battery_ok_congr e1]
        exact h
      simp only [h1]
      split
      · exact battery_handle_connection now s1 _ hok1
      · exact hok1
      · exact hok1
      · rw [battery_ok_congr (battery_mic_state_packet now s1 _)]
        exact hok1
      · exact battery_handle_battery_packet now s1 _ hok1
      · exact hok1
      · exact hok1
      · rw [battery_ok_congr (battery_mic_feedback_packet now s1 _)]
        exact hok1
      · exact battery_handle_connection now s1 _ hok1
      · exact hok1
  · exact h

lemma battery_on_device_opened (now : Int) (s : St) (g : Nat) :
    (on_device_opened now s g).1.battery = s.battery := by
  simp only [on_device_opened]
  split
  · rfl
  · rcases h1 : clear_tx_timeout_backoff
        { s with opener_alive := false, device_ready := true,
                 last_open_error := none, last_io_error := none,
                 transient_tx_failures := 0 } with ⟨s1, l1⟩
    have e1 : s1.battery = s.battery := by
      have hb := battery_clear_tx
        { s with opener_alive := false, device_ready := true,
                 last_open_error := none, last_io_error := none,
                 transient_tx_failures := 0 }
      rw [h1] at hb
      exact hb
    rcases h2 : send_command now
        { s1 with open_retry_timer_active := false, reader_running := true,
                  poll_timer_active := true }
        Command.CONNECTION_STATE true with ⟨s2, ok2, l2⟩
    have e2 : s2.battery = s1.battery := by
      have hb := battery_send_command now
        { s1 with open_retry_timer_active := false, reader_running := true,
                  poll_timer_active := true }
        Command.CONNECTION_STATE true
      rw [h2] at hb
      exact hb
    simp only [h1, h2]
    exact e2.trans e1

lemma battery_on_device_failed (now : Int) (s : St) (g : Nat) (m : String)
    (h : battery_ok s = true) :
    battery_ok (on_device_failed now s g m).1 = true := by
  simp only [on_device_failed, invalidate_tx_session, drain_tx_queue]
  split
  · exact h
  · obtain ⟨lv, p, e, t, pim, pta, l, hd⟩ := apply_disconnected_spec now
      { s with opener_alive := false, tx_session_id := s.tx_session_id + 1,
               tx_queue := [], device_ready := false }
      false false false none
    simp only [hd]
    split
    · rfl
    · rfl

lemma battery_restart (now : Int) (s : St) (reason : Option String) :
    (restart_device_connection now s reason).1.battery = none := by
  simp only [restart_device_connection, invalidate_tx_session, drain_tx_queue,
    stop_reader]
  obtain ⟨lv, p, e, t, pim, pta, l, hd⟩ := apply_disconnected_spec now
    { s with tx_session_id := s.tx_session_id + 1, tx_queue := [],
             device_ready := false, reader_running := false }
    false false true none
  simp only [hd]
  rw [battery_start_open]

lemma battery_populate (s : St) (devices : List DeviceInfo)
    (pref : Option String) :
    (populate_device_list s devices pref).1.battery = s.battery := by
  simp only [populate_device_list]
  repeat' split
  all_goals rfl

lemma battery_apply_selected (now : Int) (s : St) (rc : Bool)
    (h : battery_ok s = true) :
    battery_ok (apply_selected_device now s rc).1 = true := by
  simp only [apply_selected_device]
  split
  · rcases h1 : restart_device_connection now s
        (some "Reconnecting with selected headset.") with ⟨s1, l1⟩
    have e1 : s1.battery = none := by
      have hb := battery_restart now s (some "Reconnecting with selected headset.")
      rw [h1] at hb
      exact hb
    simp only [h1]
    unfold battery_ok
    rw [e1]
  · exact h

lemma battery_hotplug (now : Int) (s : St) (devices : List DeviceInfo)
    (err : Option String) (h : battery_ok s = true) :
    battery_ok (poll_device_hotplug now s devices err).1 = true := by
  simp only [poll_device_hotplug]
  repeat' split
  all_goals first
    | exact h
    | (exact battery_apply_selected now _ true
        (by rw [battery_ok_congr (battery_populate _ _ _)]; exact h))
    | (rw [battery_ok_congr (battery_populate _ _ _)]; exact h)

lemma battery_poll_headset (now : Int) (s : St) :
    (poll_headset now s).1.battery = s.battery := by
  simp only [poll_headset]
  split
  · rfl
  · split
    · rcases h1 : send_command now s Command.CONNECTION_STATE true with ⟨s1, ok1, l1⟩
      have e1 : s1.battery = s.battery := by
        have hb := battery_send_command now s Command.CONNECTION_STATE true
        rw [h1] at hb
        exact hb
      simp only [h1]
      exact e1
    · rcases h1 : send_command now s Command.STATUS_REQUEST true with ⟨s1, ok1, l1⟩
      have e1 : s1.battery = s.battery := by
        have hb := battery_send_command now s Command.STATUS_REQUEST true
        rw [h1] at hb
        exact hb
      rcases h2 : send_command now s1 Command.PING true with ⟨s2, ok2, l2⟩
      have e2 : s2.battery = s1.battery := by
        have hb := battery_send_command now s1 Command.PING true
        rw [h2] at hb
        exact hb
      simp only [h1, h2]
      exact e2.trans e1

lemma battery_mic_probe_timeout (now : Int) (s : St) :
    (on_mic_state_probe_timeout now s).1.battery = s.battery := by
  simp only [on_mic_state_probe_timeout]
  split
  · rfl
  · split
    · rfl
    · exact battery_apply_saved now s

lemma battery_toggle (now : Int) (s : St) (enabled : Bool) :
    (on_notifications_toggle now s enabled).battery = s.battery := by
  simp only [on_notifications_toggle, clear_pending_battery_notifications,
    clear_pending_connection_notifications]
  repeat' split
  all_goals first
    | rfl
    | exact battery_maybe_notify now { s with tray_notifications := enabled }

/-- One event-loop dispatch preserves the battery invariant. -/
lemma step_battery_ok (s : St) (e : Ev) (h : battery_ok s = true) :
    battery_ok (step s e) = true := by
  cases e with
  | packet now data => exact battery_handle_packet now s data h
  | tx_completed now sid cn a sent err =>
    exact battery_on_tx_completed now s sid cn a sent err h
  | device_opened now g =>
    rw [show step s (Ev.device_opened now g) = (on_device_opened now s g).1 from rfl,
      battery_ok_congr (battery_on_device_opened now s g)]
    exact h
  | device_failed now g m => exact battery_on_device_failed now s g m h
  | reader_io_failed now m => exact battery_handle_io now s _ h
  | send now cmd a =>
    rw [show step s (Ev.send now cmd a) = (send_command now s cmd a).1 from rfl,
      battery_ok_congr (battery_send_command now s cmd a)]
    exact h
  | poll_tick now =>
    rw [show step s (Ev.poll_tick now) = (poll_headset now s).1 from rfl,
      battery_ok_congr (battery_poll_headset now s)]
    exact h
  | mic_probe_timeout now =>
    rw [show step s (Ev.mic_probe_timeout now) =
        (on_mic_state_probe_timeout now s).1 from rfl,
      battery_ok_congr (battery_mic_probe_timeout now s)]
    exact h
  | flush_conn now =>
    rw [show step s (Ev.flush_conn now) =
        (flush_connection_notification now s).1 from rfl,
      battery_ok_congr (battery_flush_conn now s)]
    exact h
  | flush_battery now =>
    rw [show step s (Ev.flush_battery now) =
        (flush_battery_notification now s).1 from rfl,
      battery_ok_congr (battery_flush_battery now s)]
    exact h
  | open_retry_tick =>
    rw [show step s Ev.open_retry_tick = start_device_open s from rfl,
      battery_ok_congr (battery_start_open s)]
    exact h
  | hotplug now devices err => exact battery_hotplug now s devices err h
  | restart now =>
    have hb := battery_restart now s none
    rw [show step s (Ev.restart now) =
        (restart_device_connection now s none).1 from rfl]
    unfold battery_ok
    rw [hb]
  | toggle_notifications now enabled =>
    rw [show step s (Ev.toggle_notifications now enabled) =
        on_notifications_toggle now s enabled from rfl,
      battery_ok_congr (battery_toggle now s enabled)]
    exact h
  | do_quit =>
    rw [show step s Ev.do_quit = quit s from rfl,
      battery_ok_congr (battery_quit s)]
    exact h

lemma foldl_battery_ok (evs : List Ev) :
    ∀ s : St, battery_ok s = true → battery_ok (evs.foldl step s) = true := by
  induction evs with
  | nil => intro s h; exact h
  | cons e es ih =>
    intro s h
    exact ih (step s e) (step_battery_ok s e h)

lemma battery_packet_disconnect (now : Int) (s : St) :
    (handle_packet now s [0x21, 0xBB, 0x03, 0x01]).1.battery = none := by
  rcases h1 : clear_tx_timeout_backoff
      { s with transient_tx_failures := 0 } with ⟨s1, l1⟩
  simp only [handle_packet, h1]
  norm_num
  rcases h2 : on_disconnect now s1 with ⟨s2, l2⟩
  have e2 : s2.battery = none := by
    have hb := battery_on_disconnect now s1
    rw [h2] at hb
    exact hb
  simp only [handle_connection_state_packet, h2]
  norm_num
  exact e2

/-- C10 (invariant).  In every state reachable from start-up through the
coordinator's event-handling entry points, the visible battery value is
`None` or an integer in 0–100; moreover a reader I/O error (outside
shutdown) and a disconnect connection frame each reset it to `None`. -/
theorem battery_range_invariant :
    (∀ evs : List Ev, battery_ok (run_events evs) = true) ∧
    (∀ (evs : List Ev) (now : Int) (message : String),
       (run_events (evs ++ [Ev.reader_io_failed now message])).battery = none ∨
       (run_events evs).shutting_down = true) ∧
    (∀ (evs : List Ev) (now : Int),
       (run_events (evs ++ [Ev.packet now [0x21, 0xBB, 0x03, 0x01]])).battery =
         none) := by
  refine ⟨fun evs => foldl_battery_ok evs init_st rfl, ?_, ?_⟩
  · intro evs now message
    rw [show run_events (evs ++ [Ev.reader_io_failed now message]) =
        step (run_events evs) (Ev.reader_io_failed now message) from by
      simp [run_events, List.foldl_append]]
    by_cases hsd : (run_events evs).shutting_down = true
    · exact Or.inr hsd
    · exact Or.inl
        ((handle_io_teardown now (run_events evs)
          ("RX failed: " ++ message) (by simpa using hsd)).2.2.2.2.2)
  · intro evs now
    rw [show run_events (evs ++ [Ev.packet now [0x21, 0xBB, 0x03, 0x01]]) =
        step (run_events evs) (Ev.packet now [0x21, 0xBB, 0x03, 0x01]) from by
      simp [run_events, List.foldl_append]]
    exact battery_packet_disconnect now (run_events evs)

/-- C3 (amended).  A non-transient transmit outcome — the device handle
unavailable, or a write failure whose error is not timeout-classified —
on a request **not** marked `allow_transient_failure` tears the session
down through the I/O-error path on the very first such failure: the
result is "not accepted", the device is no longer ready, the state is
Disconnected, the transmit session is invalidated (queue dropped) and the
retry timer armed.  (The amendment: with `allow_transient_failure=True`, a
handle-unavailable outcome is counted against the transient-failure
threshold instead of tearing down immediately, so the claim's
unconditional handle-unavailable clause must be restricted to requests not
marked transient-tolerant.) -/
theorem non_transient_failure_teardown (now : Int) (s : St) (cn : String)
    (sent : Bool) (io_error : Option String)
    (hsd : s.shutting_down = false)
    (hcase : (io_error = none ∧ sent = false) ∨
      (∃ e, io_error = some e ∧ is_timeout_io_error e = false)) :
    (process_tx_result now s cn false sent io_error).2.1 = false ∧
    (process_tx_result now s cn false sent io_error).1.device_ready = false ∧
    (process_tx_result now s cn false sent io_error).1.status =
      ConnectionStatus.DISCONNECTED ∧
    (process_tx_result now s cn false sent io_error).1.tx_session_id =
      s.tx_session_id + 1 ∧
    (process_tx_result now s cn false sent io_error).1.tx_queue = [] ∧
    (process_tx_result now s cn false sent io_error).1.open_retry_timer_active =
      true := by
  rcases hcase with ⟨hio, hsent⟩ | ⟨e, hio, he⟩
  · subst hio; subst hsent
    rcases hres : handle_device_io_error now { s with transient_tx_failures := 0 }
        ("TX " ++ cn ++ " failed: device handle unavailable.") with ⟨s1, logs1⟩
    have ht := handle_io_teardown now { s with transient_tx_failures := 0 }
      ("TX " ++ cn ++ " failed: device handle unavailable.") hsd
    rw [hres] at ht
    have hred : process_tx_result now s cn false false none = (s1, false, logs1) := by
      simp [process_tx_result, hres]
    rw [hred]
    exact ⟨rfl, ht.1, ht.2.1, ht.2.2.1, ht.2.2.2.1, ht.2.2.2.2.1⟩
  · subst hio
    rcases hres : handle_device_io_error now { s with transient_tx_failures := 0 }
        ("TX " ++ cn ++ " failed: " ++ e) with ⟨s1, logs1⟩
    have ht := handle_io_teardown now { s with transient_tx_failures := 0 }
      ("TX " ++ cn ++ " failed: " ++ e) hsd
    rw [hres] at ht
    have hred : process_tx_result now s cn false sent (some e) =
        (s1, false, logs1) := by
      simp [process_tx_result, he, hres]
    rw [hred]
    exact ⟨rfl, ht.1, ht.2.1, ht.2.2.1, ht.2.2.2.1, ht.2.2.2.2.1⟩

/-- C3 counterexample: the very first handle-unavailable outcome on a
request marked `allow_transient_failure=True` does **not** tear the
session down — it only increments the transient-failure counter (threshold
2), contradicting the claim's unconditional handle-unavailable clause. -/
theorem transient_unavailable_no_teardown :
    (process_tx_result 0 ready_connected_ex_st "PING" true false none).1.device_ready = true ∧
    (process_tx_result 0 ready_connected_ex_st "PING" true false none).1.status =
      ConnectionStatus.CONNECTED ∧
    (process_tx_result 0 ready_connected_ex_st "PING" true false none).1.tx_session_id =
      ready_connected_ex_st.tx_session_id ∧
    (process_tx_result 0 ready_connected_ex_st "PING" true false none).1.transient_tx_failures = 1 ∧
    (process_tx_result 0 ready_connected_ex_st "PING" true false none).1.open_retry_timer_active = false := by
  exact ⟨rfl, rfl, rfl, rfl, rfl⟩

/-- Witness for C3 (amended) at a concrete non-timeout write failure. -/
theorem non_transient_failure_teardown_witness :
    (process_tx_result 0 ready_connected_ex_st "PING" false false
      (some "Broken pipe")).2.1 = false ∧
    (process_tx_result 0 ready_connected_ex_st "PING" false false
      (some "Broken pipe")).1.device_ready = false ∧
    (process_tx_result 0 ready_connected_ex_st "PING" false false
      (some "Broken pipe")).1.status = ConnectionStatus.DISCONNECTED := by
  have h := non_transient_failure_teardown 0 ready_connected_ex_st "PING" false
    (some "Broken pipe") rfl (Or.inr ⟨"Broken pipe", rfl, by decide⟩)
  exact ⟨h.1, h.2.1, h.2.2.1⟩

/-- C4.  An open-success or open-failure completion carrying a generation
number different from the current one leaves the session state unchanged:
connection status, device-ready flag, battery, the whole backoff state,
the retry timer and both last-error fields. -/
theorem stale_generation_completions_noop (now : Int) (s : St)
    (generation : Nat) (message : String)
    (h : generation ≠ s.open_generation) :
    ((on_device_opened now s generation).1.status = s.status ∧
     (on_device_opened now s generation).1.device_ready = s.device_ready ∧
     (on_device_opened now s generation).1.battery = s.battery ∧
     (on_device_opened now s generation).1.timeout_tx_failures = s.timeout_tx_failures ∧
     (on_device_opened now s generation).1.tx_timeout_backoff_ms = s.tx_timeout_backoff_ms ∧
     (on_device_opened now s generation).1.tx_suspended_until = s.tx_suspended_until ∧
     (on_device_opened now s generation).1.control_channel_busy = s.control_channel_busy ∧
     (on_device_opened now s generation).1.transient_tx_failures = s.transient_tx_failures ∧
     (on_device_opened now s generation).1.open_retry_timer_active = s.open_retry_timer_active ∧
     (on_device_opened now s generation).1.last_open_error = s.last_open_error ∧
     (on_device_opened now s generation).1.last_io_error = s.last_io_error) ∧
    ((on_device_failed now s generation message).1.status = s.status ∧
     (on_device_failed now s generation message).1.device_ready = s.device_ready ∧
     (on_device_failed now s generation message).1.battery = s.battery ∧
     (on_device_failed now s generation message).1.timeout_tx_failures = s.timeout_tx_failures ∧
     (on_device_failed now s generation message).1.tx_timeout_backoff_ms = s.tx_timeout_backoff_ms ∧
     (on_device_failed now s generation message).1.tx_suspended_until = s.tx_suspended_until ∧
     (on_device_failed now s generation message).1.control_channel_busy = s.control_channel_busy ∧
     (on_device_failed now s generation message).1.transient_tx_failures = s.transient_tx_failures ∧
     (on_device_failed now s generation message).1.open_retry_timer_active = s.open_retry_timer_active ∧
     (on_device_failed now s generation message).1.last_open_error = s.last_open_error ∧
     (on_device_failed now s generation message).1.last_io_error = s.last_io_error) := by
  unfold on_device_opened on_device_failed
  simp [h]

/-- Witness for C4 at a concrete stale completion. -/
theorem stale_generation_completions_noop_witness :
    (on_device_opened 0 stale_ex_st 1).1.status =
      ConnectionStatus.DISCONNECTED ∧
    (on_device_failed 0 stale_ex_st 1 "gone").1.battery = some 50 := by
  have h := stale_generation_completions_noop 0 stale_ex_st 1 "gone" (by decide)
  exact ⟨h.1.1, h.2.2.2.1⟩

/-- C6.  When the single-shot connection-notification debounce timer
fires (tray present, notifications enabled, a pending final state
recorded): if at least 3 transitions remain inside the sliding window one
"unstable" notice is emitted carrying the transition count and the final
state; if 1 or 2 remain, one plain connected/disconnected notice carrying
the final state is emitted.  In both cases the flush emits exactly this
single notice. -/
theorem connection_debounce_flush (now : Int) (s : St) (b : Bool)
    (htray : s.tray_present = true) (hnot : s.tray_notifications = true)
    (hpend : s.pending_connection_notification = some b) :
    (3 ≤ (s.connection_notification_events.dropWhile
        (fun e => decide (e.1 < now - CONNECTION_EVENT_WINDOW_MS))).length →
      (flush_connection_notification now s).2 =
        some (Note.conn_unstable
          (s.connection_notification_events.dropWhile
            (fun e => decide (e.1 < now - CONNECTION_EVENT_WINDOW_MS))).length b)) ∧
    ((s.connection_notification_events.dropWhile
        (fun e => decide (e.1 < now - CONNECTION_EVENT_WINDOW_MS))).length ≤ 2 →
      (flush_connection_notification now s).2 = some (Note.conn_plain b)) := by
  unfold flush_connection_notification
  simp only [hpend, htray, hnot]
  constructor
  · intro h3
    simp [if_pos h3]
  · intro h2
    have hn3 : ¬(3 ≤ (s.connection_notification_events.dropWhile
        (fun e => decide (e.1 < now - CONNECTION_EVENT_WINDOW_MS))).length) := by
      omega
    simp [if_neg hn3]

/-- Witness for C6: the spec's scenario — three transitions
(connected, disconnected, connected) within 2 s produce one grouped
"unstable" notice reporting 3 changes and final state connected. -/
theorem connection_debounce_flush_witness :
    (flush_connection_notification 2700 conn_burst_ex_st).2 =
      some (Note.conn_unstable 3 true) := by
  have h := connection_debounce_flush 2700 conn_burst_ex_st true rfl rfl rfl
  have h3 := h.1 (by decide)
  exact h3.trans (by decide)

/-- C9 (amended).  A current-generation open failure leaves the state
Disconnected, arms the retry timer at the fixed 3000 ms interval, records
the message, and logs exactly one line unless the message equals the
immediately preceding open error (consecutive repeats suppressed).  (The
amendment: suppression is only of consecutive repeats — the handler
remembers just the last message, so a message seen earlier can be logged
again once a different message intervened.) -/
theorem open_failure_retry_spec (now : Int) (s : St) (g : Nat)
    (message : String) (hsd : s.shutting_down = false)
    (hg : g = s.open_generation) :
    (on_device_failed now s g message).1.status = ConnectionStatus.DISCONNECTED ∧
    (on_device_failed now s g message).1.open_retry_timer_active = true ∧
    OPEN_RETRY_INTERVAL_MS = 3000 ∧
    (on_device_failed now s g message).1.last_open_error = some message ∧
    (on_device_failed now s g message).2.length =
      (if s.last_open_error = some message then 0 else 1) := by
  obtain ⟨lv, p, e, t, pim, pta, l, hd⟩ := apply_disconnected_spec now
    { s with opener_alive := false, tx_session_id := s.tx_session_id + 1,
             tx_queue := [], device_ready := false }
    false false false none
  have hl : l = [] := by
    have h0 := apply_disconnected_no_log now
      { s with opener_alive := false, tx_session_id := s.tx_session_id + 1,
               tx_queue := [], device_ready := false } false false none
    rw [hd] at h0
    exact h0
  subst hl
  simp only [on_device_failed, invalidate_tx_session, drain_tx_queue]
  split
  · rename_i hcond
    exact absurd hcond (by simp [hsd, hg])
  · simp only [hd]
    split
    · rename_i heq
      simp [heq, OPEN_RETRY_INTERVAL_MS]
    · rename_i hne
      simp [hne, OPEN_RETRY_INTERVAL_MS]

/-- Witness for C9 (amended) at the first failing open attempt. -/
theorem open_failure_retry_spec_witness :
    (on_device_failed 0 (start_device_open init_st) 1 "no device").1.status =
      ConnectionStatus.DISCONNECTED ∧
    (on_device_failed 0 (start_device_open init_st) 1 "no device").2.length = 1 := by
  have h := open_failure_retry_spec 0 (start_device_open init_st) 1 "no device"
    rfl rfl
  refine ⟨h.1, ?_⟩
  rw [h.2.2.2.2]
  decide

/-- C9 counterexample: with failure messages "A", "B", "A" across three
open attempts, the distinct message "A" is logged twice — only the
immediately preceding message is deduplicated, so "at most once per
distinct error message" fails on this sequence. -/
theorem open_error_message_logged_twice :
    open_fail_trace_logs =
      [(LOG_LEVEL_WARN, "Device unavailable: A"),
       (LOG_LEVEL_WARN, "Device unavailable: B"),
       (LOG_LEVEL_WARN, "Device unavailable: A")] ∧
    open_fail_trace_logs.count (LOG_LEVEL_WARN, "Device unavailable: A") = 2 := by
  exact ⟨rfl, by decide⟩

/-- C8.  A hotplug tick whose successful enumeration yields the signature
already recorded is a no-op: no repopulation (key map and signature kept),
no selection change, and no restart; only the scan-error memory is
cleared. -/
theorem hotplug_unchanged_signature_noop (now : Int) (s : St)
    (devices : List DeviceInfo) (h1 : s.shutting_down = false)
    (h2 : device_signature devices = s.last_device_signature) :
    (poll_device_hotplug now s devices none).2.2 = false ∧
    (poll_device_hotplug now s devices none).1.selected_device_key = s.selected_device_key ∧
    (poll_device_hotplug now s devices none).1.saved_device_key = s.saved_device_key ∧
    (poll_device_hotplug now s devices none).1.device_by_key = s.device_by_key ∧
    (poll_device_hotplug now s devices none).1.last_device_signature = s.last_device_signature ∧
    (poll_device_hotplug now s devices none).1.last_device_scan_error = none := by
  unfold poll_device_hotplug
  cases herr : s.last_device_scan_error <;> simp [h1, h2, herr]

/-- Witness for C8 on a concrete one-device list. -/
theorem hotplug_unchanged_signature_noop_witness :
    (poll_device_hotplug 0 hotplug_ex_st [hotplug_ex_dev] none).2.2 = false ∧
    (poll_device_hotplug 0 hotplug_ex_st [hotplug_ex_dev] none).1.selected_device_key =
      some "k" := by
  have h := hotplug_unchanged_signature_noop 0 hotplug_ex_st [hotplug_ex_dev]
    (by decide) (by decide)
  exact ⟨h.1, h.2.1.trans (by decide)⟩

end HyperxAlpha
